import Mathlib

/-!
Verification of the scoring / ROI / stack-builder / chat-dispatch core of the
AI-tools directory.

Modelling conventions for the shallow embedding of the TypeScript source:

* JavaScript numbers are modelled as exact rationals (`ℚ`); IEEE-754 rounding
  is outside the model.  `Math.round` is Mathlib's `round` (round half away
  from zero towards `+∞`, which agrees with JS `Math.round`).
* The JS value `Infinity` (produced only by the payback-period computation)
  is modelled with `WithTop ℚ`, `⊤` standing for `Infinity`.
* `Math.random()`-generated ids and `new Date()` timestamps are modelled as
  the constants `""` and `()`: no claim depends on them.
* The dynamic `import('@/data/tools')` is modelled as an explicit catalog
  parameter.  In the chat dispatcher the import failure is caught by the
  surrounding `try`/`catch`, so there the catalog is an `Option` and `none`
  models a failing import.
* JS `String.prototype.includes` is contiguous-substring containment,
  modelled by `strIncludes`; `toLowerCase`/`trim` by `strLower`/`strTrim`.
-/

/-! ## String primitives (JS `includes`, `toLowerCase`, `trim`) -/

/-- JS `hay.includes(needle)` on character lists: `needle` occurs contiguously. -/
def listHasSubstr (hay needle : List Char) : Bool :=
  needle.isPrefixOf hay ||
    match hay with
    | [] => false
    | _ :: t => listHasSubstr t needle

/-- JS `hay.includes(needle)` on strings. -/
def strIncludes (hay needle : String) : Bool :=
  listHasSubstr hay.data needle.data

/-- JS `s.toLowerCase()` (ASCII-faithful; all source literals are ASCII). -/
def strLower (s : String) : String :=
  String.mk (s.data.map Char.toLower)

/-- JS `s.trim()`: strip whitespace on both ends. -/
def strTrim (s : String) : String :=
  String.mk (((s.data.dropWhile Char.isWhitespace).reverse.dropWhile
    Char.isWhitespace).reverse)

/-! ## The shared `extractPrice` regex `/\$?(\d+(?:\.\d{2})?)/`

All three classes (recommendation engine, ROI calculator, stack builder)
contain the textually identical helper

    private extractPrice(pricing: string): number {
        const match = pricing.match(/\$?(\d+(?:\.\d{2})?)/);
        return match ? parseFloat(match[1]) : 0;
    }

The regex finds the first maximal digit run (an optional `$` before it does
not affect the captured group) and optionally exactly two decimals. -/

/-- Numeric value of a decimal digit character. -/
def digitVal (c : Char) : ℕ := c.toNat - 48

/-- Read a maximal digit run, returning its value and the remaining input. -/
def readDigitsAcc : List Char → ℕ → ℕ × List Char
  | [], acc => (acc, [])
  | c :: rest, acc =>
    if c.isDigit then readDigitsAcc rest (acc * 10 + digitVal c)
    else (acc, c :: rest)

/-- Value of the optional `(?:\.\d{2})?` group following the digit run. -/
def fracPart : List Char → ℚ
  | '.' :: d1 :: d2 :: _ =>
    if d1.isDigit && d2.isDigit then
      ((10 * digitVal d1 + digitVal d2 : ℕ) : ℚ) / 100
    else 0
  | _ => 0

/-- `parseFloat` of the captured group starting at a digit. -/
def parseNumberAt (l : List Char) : ℚ :=
  let p := readDigitsAcc l 0
  (p.1 : ℚ) + fracPart p.2

/-- Suffix of the input starting at the first digit, if any. -/
def firstDigitSuffix : List Char → Option (List Char)
  | [] => none
  | c :: rest => if c.isDigit then some (c :: rest) else firstDigitSuffix rest

/-- The common body of the three identical `extractPrice` implementations. -/
def extractPriceCore (pricing : String) : ℚ :=
  match firstDigitSuffix pricing.data with
  | some l => parseNumberAt l
  | none => 0

/-! ## Data model (`@/types/tool`, `@/types/user`) -/

/-- `experience: 'beginner' | 'intermediate' | 'expert'`. -/
inductive Experience
  | beginner
  | intermediate
  | expert
deriving DecidableEq

/-- String rendering used in template literals. -/
def Experience.toStr : Experience → String
  | .beginner => "beginner"
  | .intermediate => "intermediate"
  | .expert => "expert"

/-- `teamSize: 'solo' | 'small' | 'medium' | 'large' | 'enterprise'`. -/
inductive TeamSize
  | solo
  | small
  | medium
  | large
  | enterprise
deriving DecidableEq

/-- String rendering used in template literals. -/
def TeamSize.toStr : TeamSize → String
  | .solo => "solo"
  | .small => "small"
  | .medium => "medium"
  | .large => "large"
  | .enterprise => "enterprise"

/-- JS number-to-string interpolation, approximated; no claim depends on the
rendered digits. -/
def ratStr (q : ℚ) : String := toString q

/-- A catalog entry (`Tool` from `@/types/tool`; the optional fields are the
ones the embedded code accesses with `?.` / `|| []`). -/
structure Tool where
  id : String
  name : String
  category : String
  subcategory : Option String
  description : String
  pricing : String
  tags : Option (List String)
  rating : Option ℚ
  url : String

/-- `budget` sub-object of `UserProfile`. -/
structure Budget where
  monthly : ℚ
  annual : ℚ
  currency : String

/-- `toolPreferences` sub-object of `UserProfile` (each 1-10). -/
structure ToolPreferences where
  easeOfUse : ℚ
  priceSensitivity : ℚ
  featureRichness : ℚ
  integrationNeeds : ℚ

/-- `SearchQuery` from `@/types/user`. -/
structure SearchQuery where
  id : String
  query : String
  timestamp : Unit
  results : List String
  clickedTools : List String
  sessionDuration : ℚ

/-- Interaction kinds of `ToolInteraction`. -/
inductive InteractionType
  | view
  | like
  | bookmark
  | review
  | demo
  | purchase
deriving DecidableEq

/-- `ToolInteraction` from `@/types/user`. -/
structure ToolInteraction where
  id : String
  toolId : String
  interactionType : InteractionType
  timestamp : Unit
  duration : Option ℚ
  rating : Option ℚ
  review : Option String

/-- `learningCurve: 'easy' | 'medium' | 'hard'`. -/
inductive LearningCurveLabel
  | easy
  | medium
  | hard
deriving DecidableEq

/-- `ToolRecommendation` from `@/types/user`. -/
structure ToolRecommendation where
  id : String
  toolId : String
  confidence : ℚ
  reasoning : String
  alternatives : List String
  estimatedROI : ℚ
  timeToValue : ℚ
  learningCurve : LearningCurveLabel
  recommendedFor : List String
  timestamp : Unit

/-- `AIMemory` from `@/types/user`. -/
structure AIMemory where
  id : String
  context : String
  userPreference : String
  timestamp : Unit
  confidence : ℚ

/-- `premiumTier: 'basic' | 'pro' | 'enterprise'`. -/
inductive PremiumTier
  | basic
  | pro
  | enterprise
deriving DecidableEq

/-- `UserProfile` from `@/types/user`. -/
structure UserProfile where
  id : String
  userId : String
  industry : String
  role : String
  company : String
  experience : Experience
  teamSize : TeamSize
  budget : Budget
  primaryGoals : List String
  currentProjects : List String
  painPoints : List String
  currentTools : List String
  preferredCategories : List String
  toolPreferences : ToolPreferences
  searchHistory : List SearchQuery
  toolInteractions : List ToolInteraction
  recommendations : List ToolRecommendation
  isPremium : Bool
  premiumTier : PremiumTier
  aiAssistantMemory : List AIMemory
  createdAt : Unit
  updatedAt : Unit

/-- `sessionData` sub-object of `RecommendationContext`. -/
structure SessionData where
  timeOnSite : ℚ
  pagesVisited : List String
  currentGoal : Option String

/-- `RecommendationContext` (recommendation engine module). -/
structure RecommendationContext where
  userProfile : UserProfile
  currentSearch : Option String
  recentInteractions : List ToolInteraction
  searchHistory : List SearchQuery
  sessionData : SessionData

/-- The eight scoring sub-factors of `RecommendationScore.factors`. -/
structure RecommendationFactors where
  budgetMatch : ℚ
  experienceMatch : ℚ
  goalAlignment : ℚ
  industryRelevance : ℚ
  popularityScore : ℚ
  roiPotential : ℚ
  learningCurve : ℚ
  integrationScore : ℚ

/-- `RecommendationScore` (recommendation engine module). -/
structure RecommendationScore where
  tool : Tool
  score : ℚ
  factors : RecommendationFactors
  reasoning : List String
  alternatives : List Tool
  estimatedROI : ℚ
  timeToValue : ℚ
  confidence : ℚ

namespace AIRecommendationEngine

/-- `extractPrice` of the recommendation engine. -/
def extractPrice (pricing : String) : ℚ := extractPriceCore pricing

/-- `estimateToolComplexity`: fraction of five keyword heuristics matched. -/
def estimateToolComplexity (tool : Tool) : ℚ :=
  let complexityIndicators : List Bool :=
    [ strIncludes tool.description "enterprise",
      strIncludes tool.description "advanced",
      strIncludes tool.description "complex",
      (tool.tags.getD []).any (fun tag => strIncludes tag "enterprise"),
      (tool.tags.getD []).any (fun tag => strIncludes tag "advanced") ]
  (((complexityIndicators.filter id).length : ℕ) : ℚ) / 5

/-- `calculateBudgetMatch`. -/
def calculateBudgetMatch (tool : Tool) (profile : UserProfile) : ℚ :=
  let toolPrice := extractPrice tool.pricing
  let userBudget := profile.budget.monthly
  if toolPrice = 0 then 1.0
  else if toolPrice ≤ userBudget * 0.3 then 1.0
  else if toolPrice ≤ userBudget * 0.6 then 0.8
  else if toolPrice ≤ userBudget then 0.6
  else 0.2

/-- `complexityMap` value for a user experience level. -/
def experienceLevelValue : Experience → ℚ
  | .beginner => 0.3
  | .intermediate => 0.6
  | .expert => 0.9

/-- `calculateExperienceMatch`. -/
def calculateExperienceMatch (tool : Tool) (profile : UserProfile) : ℚ :=
  let userLevel := experienceLevelValue profile.experience
  let toolComplexity := estimateToolComplexity tool
  1 - |userLevel - toolComplexity|

/-- `calculateGoalAlignment`. -/
def calculateGoalAlignment (tool : Tool) (context : RecommendationContext) : ℚ :=
  let userGoals := context.userProfile.primaryGoals
  let toolTags := tool.tags.getD []
  let toolDescription := strLower tool.description
  let alignmentScore := userGoals.foldl (fun acc goal =>
    let goalLower := strLower goal
    let acc := if toolTags.any (fun tag => strIncludes (strLower tag) goalLower)
      then acc + 0.4 else acc
    let acc := if strIncludes toolDescription goalLower then acc + 0.3 else acc
    if strIncludes (strLower tool.category) goalLower then acc + 0.3 else acc) 0
  min alignmentScore 1.0

/-- `getIndustryKeywords` (`industryMap` lookup with singleton default). -/
def getIndustryKeywords (industry : String) : List String :=
  if industry = "Technology" then
    [ "software", "tech", "development", "coding", "programming" ]
  else if industry = "Marketing" then
    [ "marketing", "advertising", "social media", "campaign", "brand" ]
  else if industry = "Finance" then
    [ "finance", "accounting", "budgeting", "investment", "banking" ]
  else if industry = "Healthcare" then
    [ "health", "medical", "patient", "clinical", "diagnosis" ]
  else if industry = "Education" then
    [ "education", "learning", "teaching", "student", "course" ]
  else if industry = "E-commerce" then
    [ "ecommerce", "retail", "sales", "inventory", "shipping" ]
  else [ strLower industry ]

/-- The template literal `` `${name} ${description} ${tags?.join(' ')}` ``:
with no `tags`, JS interpolates the string `"undefined"`. -/
def toolTextRaw (tool : Tool) : String :=
  tool.name ++ " " ++ tool.description ++ " " ++
    (match tool.tags with
     | some ts => String.intercalate " " ts
     | none => "undefined")

/-- `calculateIndustryRelevance`. -/
def calculateIndustryRelevance (tool : Tool) (profile : UserProfile) : ℚ :=
  let industryKeywords := getIndustryKeywords profile.industry
  let toolText := strLower (toolTextRaw tool)
  let relevanceScore :=
    (((industryKeywords.filter (fun keyword =>
        strIncludes toolText (strLower keyword))).length : ℕ) : ℚ) /
      ((industryKeywords.length : ℕ) : ℚ)
  min relevanceScore 1.0

/-- `calculatePopularityScore`: `(tool.rating || 0) / 5.0`. -/
def calculatePopularityScore (tool : Tool) : ℚ :=
  (tool.rating.getD 0) / 5.0

/-- `getIndustryROIMultiplier` (lookup with default 1.0). -/
def getIndustryROIMultiplier (industry : String) : ℚ :=
  if industry = "Technology" then 1.5
  else if industry = "Finance" then 1.3
  else if industry = "Marketing" then 1.2
  else if industry = "Healthcare" then 1.1
  else if industry = "Education" then 0.9
  else if industry = "E-commerce" then 1.4
  else 1.0

/-- `getTeamSizeMultiplier` of the recommendation engine. -/
def getTeamSizeMultiplier : TeamSize → ℚ
  | .solo => 0.8
  | .small => 1.0
  | .medium => 1.2
  | .large => 1.4
  | .enterprise => 1.6

/-- `calculateROIPotential`. -/
def calculateROIPotential (_tool : Tool) (profile : UserProfile) : ℚ :=
  let baseROI := (0.5 : ℚ)
  let industryMultiplier := getIndustryROIMultiplier profile.industry
  let teamSizeMultiplier := getTeamSizeMultiplier profile.teamSize
  baseROI * industryMultiplier * teamSizeMultiplier

/-- `calculateLearningCurveScore`. -/
def calculateLearningCurveScore (tool : Tool) (profile : UserProfile) : ℚ :=
  let experienceLevel := profile.experience
  let toolComplexity := estimateToolComplexity tool
  if experienceLevel = .beginner ∧ toolComplexity < 0.4 then 1.0
  else if experienceLevel = .intermediate ∧ 0.3 ≤ toolComplexity ∧
      toolComplexity ≤ 0.7 then 1.0
  else if experienceLevel = .expert ∧ 0.6 < toolComplexity then 1.0
  else 0.5

/-- `calculateIntegrationScore`. -/
def calculateIntegrationScore (tool : Tool) (profile : UserProfile) : ℚ :=
  let integrationNeeds := profile.toolPreferences.integrationNeeds
  let hasIntegrations := (tool.tags.getD []).any (fun tag =>
    strIncludes (strLower tag) "api" ||
    strIncludes (strLower tag) "integration" ||
    strIncludes (strLower tag) "zapier")
  if integrationNeeds > 7 ∧ hasIntegrations then 1.0
  else if integrationNeeds < 4 ∧ ¬hasIntegrations then 1.0
  else 0.5

/-- `generateReasoning`. -/
def generateReasoning (factors : RecommendationFactors) (_tool : Tool)
    (context : RecommendationContext) : List String :=
  let reasons : List String := []
  let reasons := if factors.budgetMatch > 0.8 then
    reasons ++ [ "Fits your budget of " ++ context.userProfile.budget.currency ++
      ratStr context.userProfile.budget.monthly ++ "/month" ] else reasons
  let reasons := if factors.experienceMatch > 0.8 then
    reasons ++ [ "Perfect for " ++ context.userProfile.experience.toStr ++
      " level users" ] else reasons
  let reasons := if factors.goalAlignment > 0.7 then
    reasons ++ [ "Aligns with your goals: " ++
      String.intercalate ", " (context.userProfile.primaryGoals.take 2) ]
    else reasons
  let reasons := if factors.industryRelevance > 0.7 then
    reasons ++ [ "Popular in " ++ context.userProfile.industry ++ " industry" ]
    else reasons
  if factors.roiPotential > 0.7 then
    reasons ++ [ "High ROI potential for your team size" ] else reasons

/-- `findAlternatives` (same-category tools rated at least 4.0, first three).
The `require('@/data/tools')` catalog is the explicit first argument. -/
def findAlternatives (tools : List Tool) (tool : Tool)
    (_context : RecommendationContext) : List Tool :=
  (tools.filter (fun t =>
    decide (t.id ≠ tool.id) && decide (t.category = tool.category) &&
      (match t.rating with
       | some r => decide ((4.0 : ℚ) ≤ r)
       | none => false))).take 3

/-- `estimateROI` of the recommendation engine: `round(150 × im × tm)`. -/
def estimateROI (_tool : Tool) (profile : UserProfile) : ℚ :=
  let baseROI := (150 : ℚ)
  let industryMultiplier := getIndustryROIMultiplier profile.industry
  let teamSizeMultiplier := getTeamSizeMultiplier profile.teamSize
  ((round (baseROI * industryMultiplier * teamSizeMultiplier) : ℤ) : ℚ)

/-- `estimateTimeToValue`. -/
def estimateTimeToValue (tool : Tool) (profile : UserProfile) : ℚ :=
  let complexity := estimateToolComplexity tool
  let baseDays : ℚ :=
    if complexity < 0.3 then 7 else if complexity < 0.6 then 14 else 45
  let baseDays := if profile.experience = .expert then baseDays * 0.7 else baseDays
  let baseDays := if profile.experience = .beginner then baseDays * 1.5 else baseDays
  ((round baseDays : ℤ) : ℚ)

/-- `calculateConfidence`: average of the eight factors, scaled by data quality. -/
def calculateConfidence (factors : RecommendationFactors)
    (context : RecommendationContext) : ℚ :=
  let averageScore := (factors.budgetMatch + factors.experienceMatch +
    factors.goalAlignment + factors.industryRelevance + factors.popularityScore +
    factors.roiPotential + factors.learningCurve + factors.integrationScore) / 8
  let dataQuality := min (((context.recentInteractions.length : ℕ) : ℚ) / 10) 1
  min (averageScore * (0.7 + 0.3 * dataQuality)) 1.0

/-- `calculateToolScore`: the eight factors and their fixed-weight aggregate.
The catalog (used only by `findAlternatives`) is the first argument. -/
def calculateToolScore (tools : List Tool) (tool : Tool)
    (context : RecommendationContext) : RecommendationScore :=
  let factors : RecommendationFactors :=
    { budgetMatch := calculateBudgetMatch tool context.userProfile
      experienceMatch := calculateExperienceMatch tool context.userProfile
      goalAlignment := calculateGoalAlignment tool context
      industryRelevance := calculateIndustryRelevance tool context.userProfile
      popularityScore := calculatePopularityScore tool
      roiPotential := calculateROIPotential tool context.userProfile
      learningCurve := calculateLearningCurveScore tool context.userProfile
      integrationScore := calculateIntegrationScore tool context.userProfile }
  let score := factors.budgetMatch * 0.15 + factors.experienceMatch * 0.12 +
    factors.goalAlignment * 0.20 + factors.industryRelevance * 0.10 +
    factors.popularityScore * 0.08 + factors.roiPotential * 0.15 +
    factors.learningCurve * 0.10 + factors.integrationScore * 0.10
  { tool := tool
    score := score
    factors := factors
    reasoning := generateReasoning factors tool context
    alternatives := findAlternatives tools tool context
    estimatedROI := estimateROI tool context.userProfile
    timeToValue := estimateTimeToValue tool context.userProfile
    confidence := calculateConfidence factors context }

/-- `calculateLearningCurve` label bucketing. -/
def calculateLearningCurve (score : ℚ) : LearningCurveLabel :=
  if score > 0.7 then .easy else if score > 0.4 then .medium else .hard

/-- `generateRecommendationContext`. -/
def generateRecommendationContext (scoredTool : RecommendationScore)
    (context : RecommendationContext) : List String :=
  let contexts : List String := []
  let contexts := if scoredTool.factors.budgetMatch > 0.8 then
    contexts ++ [ "Budget-friendly option" ] else contexts
  let contexts := if scoredTool.factors.experienceMatch > 0.8 then
    contexts ++ [ "Perfect for " ++ context.userProfile.experience.toStr ++
      " users" ] else contexts
  if scoredTool.factors.goalAlignment > 0.7 then
    contexts ++ [ "Goal-aligned solution" ] else contexts

/-- `generateRecommendations`: score the catalog, sort descending by score
(JS `sort((a,b) => b.score - a.score)` is stable), truncate to `limit`. -/
def generateRecommendations (tools : List Tool)
    (context : RecommendationContext) (limit : ℕ) : List ToolRecommendation :=
  let scoredTools := tools.map (fun tool => calculateToolScore tools tool context)
  let topRecommendations :=
    (scoredTools.mergeSort (fun a b => decide (b.score ≤ a.score))).take limit
  topRecommendations.map (fun scoredTool =>
    { id := ""
      toolId := scoredTool.tool.id
      confidence := scoredTool.confidence
      reasoning := String.intercalate "; " scoredTool.reasoning
      alternatives := scoredTool.alternatives.map (fun t => t.id)
      estimatedROI := scoredTool.estimatedROI
      timeToValue := scoredTool.timeToValue
      learningCurve := calculateLearningCurve scoredTool.factors.learningCurve
      recommendedFor := generateRecommendationContext scoredTool context
      timestamp := () })

end AIRecommendationEngine

/-! ## ROI calculator (`src/lib/roiCalculator.ts`) -/

/-- `investment` sub-record of `ROICalculation`. -/
structure ROIInvestment where
  monthly : ℚ
  annual : ℚ
  setup : ℚ
  training : ℚ
  total : ℚ

/-- `returns` sub-record of `ROICalculation`. -/
structure ROIReturns where
  timeSavings : ℚ
  productivityGains : ℚ
  costReduction : ℚ
  revenueIncrease : ℚ
  total : ℚ

/-- `roi` sub-record of `ROICalculation`; `paybackPeriod` is `⊤` for the JS
value `Infinity`. -/
structure ROIMetrics where
  percentage : ℚ
  paybackPeriod : WithTop ℚ
  netPresentValue : ℚ
  internalRateOfReturn : ℚ

/-- `breakdown.timeSavings`. -/
structure TimeSavingsBreakdown where
  hoursPerMonth : ℚ
  hourlyRate : ℚ
  monthlyValue : ℚ

/-- `breakdown.productivityGains`. -/
structure ProductivityBreakdown where
  efficiencyImprovement : ℚ
  teamSize : ℚ
  averageSalary : ℚ
  monthlyValue : ℚ

/-- `breakdown.costReduction`. -/
structure CostReductionBreakdown where
  currentCosts : ℚ
  newCosts : ℚ
  monthlySavings : ℚ

/-- `breakdown.revenueIncrease`. -/
structure RevenueBreakdown where
  currentRevenue : ℚ
  expectedGrowth : ℚ
  monthlyIncrease : ℚ

/-- `breakdown` sub-record of `ROICalculation`. -/
structure ROIBreakdown where
  timeSavings : TimeSavingsBreakdown
  productivityGains : ProductivityBreakdown
  costReduction : CostReductionBreakdown
  revenueIncrease : RevenueBreakdown

/-- `ROICalculation`. -/
structure ROICalculation where
  toolId : String
  toolName : String
  investment : ROIInvestment
  returns : ROIReturns
  roi : ROIMetrics
  breakdown : ROIBreakdown
  confidence : ℚ
  assumptions : List String

/-- `riskAssessment: 'low' | 'medium' | 'high'`. -/
inductive RiskLevel
  | low
  | medium
  | high
deriving DecidableEq

/-- `StackROICalculation`. -/
structure StackROICalculation where
  stackId : String
  stackName : String
  tools : List ROICalculation
  totalInvestment : ℚ
  totalReturns : ℚ
  overallROI : ℚ
  paybackPeriod : WithTop ℚ
  riskAssessment : RiskLevel
  recommendations : List String

/-- Rounding to two decimals: `Math.round(x * 100) / 100`. -/
def round2 (x : ℚ) : ℚ := ((round (x * 100) : ℤ) : ℚ) / 100

namespace ROICalculator

/-- `extractPrice` of the ROI calculator (textually identical to the
recommendation engine's copy). -/
def extractPrice (pricing : String) : ℚ := extractPriceCore pricing

/-- `getComplexityMultiplier`: `0.5 + complexityScore × 1.5`, in `[0.5, 2.0]`. -/
def getComplexityMultiplier (tool : Tool) : ℚ :=
  let complexityIndicators : List Bool :=
    [ strIncludes tool.description "enterprise",
      strIncludes tool.description "advanced",
      strIncludes tool.description "complex",
      (tool.tags.getD []).any (fun tag => strIncludes tag "enterprise"),
      (tool.tags.getD []).any (fun tag => strIncludes tag "advanced") ]
  let complexityScore := (((complexityIndicators.filter id).length : ℕ) : ℚ) / 5
  0.5 + complexityScore * 1.5

/-- `getTeamSizeMultiplier` of the ROI calculator (differs from the engine's). -/
def getTeamSizeMultiplier : TeamSize → ℚ
  | .solo => 0.5
  | .small => 1.0
  | .medium => 1.5
  | .large => 2.0
  | .enterprise => 3.0

/-- `estimateSetupCost`: `round(500 × cm × tm)`. -/
def estimateSetupCost (tool : Tool) (userProfile : UserProfile) : ℚ :=
  let baseSetupCost := (500 : ℚ)
  ((round (baseSetupCost * getComplexityMultiplier tool *
    getTeamSizeMultiplier userProfile.teamSize) : ℤ) : ℚ)

/-- `estimateTrainingCost`: `round(200 × cm × tm)`. -/
def estimateTrainingCost (tool : Tool) (userProfile : UserProfile) : ℚ :=
  let baseTrainingCost := (200 : ℚ)
  ((round (baseTrainingCost * getComplexityMultiplier tool *
    getTeamSizeMultiplier userProfile.teamSize) : ℤ) : ℚ)

/-- `estimateTimeSavings` (`categorySavings` lookup, default 15). -/
def estimateTimeSavings (tool : Tool) : ℚ :=
  if tool.category = "Marketing" then 20
  else if tool.category = "Design" then 15
  else if tool.category = "Development" then 25
  else if tool.category = "Analytics" then 18
  else if tool.category = "Automation" then 30
  else if tool.category = "Communication" then 12
  else if tool.category = "Project Management" then 22
  else if tool.category = "Finance" then 16
  else 15

/-- `estimateEfficiencyImprovement`: `0.15 × (rating || 4.0) / 5`. -/
def estimateEfficiencyImprovement (tool : Tool) : ℚ :=
  let baseImprovement := (0.15 : ℚ)
  let ratingMultiplier := (tool.rating.getD 4.0) / 5.0
  baseImprovement * ratingMultiplier

/-- `estimateCurrentCosts` (`categoryCosts` lookup, default 1500). -/
def estimateCurrentCosts (tool : Tool) (_userProfile : UserProfile) : ℚ :=
  if tool.category = "Marketing" then 2000
  else if tool.category = "Design" then 1500
  else if tool.category = "Development" then 3000
  else if tool.category = "Analytics" then 1800
  else if tool.category = "Automation" then 2500
  else if tool.category = "Communication" then 800
  else if tool.category = "Project Management" then 1200
  else if tool.category = "Finance" then 1000
  else 1500

/-- `estimateCurrentRevenue` (`industryRevenue` lookup, default 300000). -/
def estimateCurrentRevenue (userProfile : UserProfile) : ℚ :=
  if userProfile.industry = "Technology" then 500000
  else if userProfile.industry = "Finance" then 800000
  else if userProfile.industry = "Marketing" then 300000
  else if userProfile.industry = "Healthcare" then 600000
  else if userProfile.industry = "Education" then 200000
  else if userProfile.industry = "E-commerce" then 400000
  else 300000

/-- `estimateRevenueGrowth` (`categoryGrowth` lookup, default 0.15). -/
def estimateRevenueGrowth (tool : Tool) : ℚ :=
  if tool.category = "Marketing" then 0.25
  else if tool.category = "Design" then 0.15
  else if tool.category = "Development" then 0.30
  else if tool.category = "Analytics" then 0.20
  else if tool.category = "Automation" then 0.35
  else if tool.category = "Communication" then 0.10
  else if tool.category = "Project Management" then 0.18
  else if tool.category = "Finance" then 0.12
  else 0.15

/-- `getHourlyRate` (`industryRates` lookup, default 60). -/
def getHourlyRate (userProfile : UserProfile) : ℚ :=
  if userProfile.industry = "Technology" then 75
  else if userProfile.industry = "Finance" then 85
  else if userProfile.industry = "Marketing" then 60
  else if userProfile.industry = "Healthcare" then 70
  else if userProfile.industry = "Education" then 45
  else if userProfile.industry = "E-commerce" then 65
  else 60

/-- `getAverageSalary` (`industrySalaries` lookup, default 90000). -/
def getAverageSalary (userProfile : UserProfile) : ℚ :=
  if userProfile.industry = "Technology" then 120000
  else if userProfile.industry = "Finance" then 140000
  else if userProfile.industry = "Marketing" then 90000
  else if userProfile.industry = "Healthcare" then 110000
  else if userProfile.industry = "Education" then 70000
  else if userProfile.industry = "E-commerce" then 100000
  else 90000

/-- `getIndustryKeywords` (identical table to the engine's). -/
def getIndustryKeywords (industry : String) : List String :=
  AIRecommendationEngine.getIndustryKeywords industry

/-- `isIndustryRelevant`. -/
def isIndustryRelevant (tool : Tool) (industry : String) : Bool :=
  let toolText := strLower (AIRecommendationEngine.toolTextRaw tool)
  (getIndustryKeywords industry).any (fun keyword =>
    strIncludes toolText (strLower keyword))

/-- `matchesExperienceLevel`. -/
def matchesExperienceLevel (tool : Tool) (experience : Experience) : Bool :=
  let complexity := getComplexityMultiplier tool
  if experience = .beginner ∧ complexity < 1.2 then true
  else if experience = .intermediate ∧ 1.0 ≤ complexity ∧ complexity ≤ 1.8 then
    true
  else if experience = .expert ∧ 1.5 < complexity then true
  else false

/-- `calculateInvestment`. -/
def calculateInvestment (tool : Tool) (userProfile : UserProfile) : ROIInvestment :=
  let monthlyCost := extractPrice tool.pricing
  let setupCost := estimateSetupCost tool userProfile
  let trainingCost := estimateTrainingCost tool userProfile
  { monthly := monthlyCost
    annual := monthlyCost * 12
    setup := setupCost
    training := trainingCost
    total := monthlyCost * 12 + setupCost + trainingCost }

/-- `calculateTimeSavings`. -/
def calculateTimeSavings (tool : Tool) (userProfile : UserProfile) : ℚ :=
  estimateTimeSavings tool * getHourlyRate userProfile * 12

/-- `calculateProductivityGains`. -/
def calculateProductivityGains (tool : Tool) (userProfile : UserProfile) : ℚ :=
  (estimateEfficiencyImprovement tool * getTeamSizeMultiplier userProfile.teamSize *
    getAverageSalary userProfile * 0.1) * 12

/-- `calculateCostReduction`. -/
def calculateCostReduction (tool : Tool) (userProfile : UserProfile) : ℚ :=
  max 0 (estimateCurrentCosts tool userProfile - extractPrice tool.pricing * 12)

/-- `calculateRevenueIncrease`. -/
def calculateRevenueIncrease (tool : Tool) (userProfile : UserProfile) : ℚ :=
  estimateCurrentRevenue userProfile * estimateRevenueGrowth tool

/-- `calculateReturns`. -/
def calculateReturns (tool : Tool) (userProfile : UserProfile) : ROIReturns :=
  let timeSavings := calculateTimeSavings tool userProfile
  let productivityGains := calculateProductivityGains tool userProfile
  let costReduction := calculateCostReduction tool userProfile
  let revenueIncrease := calculateRevenueIncrease tool userProfile
  { timeSavings := timeSavings
    productivityGains := productivityGains
    costReduction := costReduction
    revenueIncrease := revenueIncrease
    total := timeSavings + productivityGains + costReduction + revenueIncrease }

/-- `calculateNPV`: single-period simplification with 10% discount. -/
def calculateNPV (investment returns : ℚ) : ℚ :=
  -investment + returns / (1 + 0.1)

/-- `calculateIRR`: simplified single-period rate. -/
def calculateIRR (investment returns : ℚ) : ℚ :=
  if investment ≤ 0 ∨ returns ≤ 0 then 0
  else (returns - investment) / investment

/-- `calculateROIMetrics`; `paybackPeriod` is `Infinity` (`⊤`) when
`returns ≤ 0`, and `Math.round(Infinity * 100)/100` is still `Infinity`. -/
def calculateROIMetrics (investment returns : ℚ) : ROIMetrics :=
  let roiPercentage :=
    if investment > 0 then (returns - investment) / investment * 100 else 0
  let paybackPeriod : WithTop ℚ :=
    if returns > 0 then ((investment / (returns / 12) : ℚ) : WithTop ℚ) else ⊤
  { percentage := round2 roiPercentage
    paybackPeriod := paybackPeriod.map round2
    netPresentValue := ((round (calculateNPV investment returns) : ℤ) : ℚ)
    internalRateOfReturn := round2 (calculateIRR investment returns) }

/-- `calculatePaybackPeriod` (used for the stack aggregate). -/
def calculatePaybackPeriod (investment annualReturns : ℚ) : WithTop ℚ :=
  if annualReturns ≤ 0 then ⊤
  else ((investment / (annualReturns / 12) : ℚ) : WithTop ℚ)

/-- `calculateTimeSavingsBreakdown`. -/
def calculateTimeSavingsBreakdown (tool : Tool) (userProfile : UserProfile) :
    TimeSavingsBreakdown :=
  let hoursPerMonth := estimateTimeSavings tool
  let hourlyRate := getHourlyRate userProfile
  { hoursPerMonth := hoursPerMonth
    hourlyRate := hourlyRate
    monthlyValue := hoursPerMonth * hourlyRate }

/-- `calculateProductivityBreakdown`. -/
def calculateProductivityBreakdown (tool : Tool) (userProfile : UserProfile) :
    ProductivityBreakdown :=
  let efficiencyImprovement := estimateEfficiencyImprovement tool
  let teamSize := getTeamSizeMultiplier userProfile.teamSize
  let averageSalary := getAverageSalary userProfile
  { efficiencyImprovement := efficiencyImprovement
    teamSize := teamSize
    averageSalary := averageSalary
    monthlyValue := efficiencyImprovement * teamSize * averageSalary * 0.1 }

/-- `calculateCostReductionBreakdown`. -/
def calculateCostReductionBreakdown (tool : Tool) (userProfile : UserProfile) :
    CostReductionBreakdown :=
  let currentCosts := estimateCurrentCosts tool userProfile
  let newCosts := extractPrice tool.pricing * 12
  { currentCosts := currentCosts
    newCosts := newCosts
    monthlySavings := max 0 ((currentCosts - newCosts) / 12) }

/-- `calculateRevenueBreakdown`. -/
def calculateRevenueBreakdown (tool : Tool) (userProfile : UserProfile) :
    RevenueBreakdown :=
  let currentRevenue := estimateCurrentRevenue userProfile
  let expectedGrowth := estimateRevenueGrowth tool
  { currentRevenue := currentRevenue
    expectedGrowth := expectedGrowth
    monthlyIncrease := currentRevenue * expectedGrowth / 12 }

/-- `calculateBreakdown`. -/
def calculateBreakdown (tool : Tool) (userProfile : UserProfile) : ROIBreakdown :=
  { timeSavings := calculateTimeSavingsBreakdown tool userProfile
    productivityGains := calculateProductivityBreakdown tool userProfile
    costReduction := calculateCostReductionBreakdown tool userProfile
    revenueIncrease := calculateRevenueBreakdown tool userProfile }

/-- `calculateConfidence` of the ROI calculator: additive, capped at 1. -/
def calculateConfidence (tool : Tool) (userProfile : UserProfile) : ℚ :=
  let confidence := (0.7 : ℚ)
  let confidence := match tool.rating with
    | some r => if r ≥ 4.5 then confidence + 0.1 else confidence
    | none => confidence
  let confidence := match tool.rating with
    | some r => if r ≥ 4.0 then confidence + 0.05 else confidence
    | none => confidence
  let confidence := if isIndustryRelevant tool userProfile.industry then
    confidence + 0.1 else confidence
  let confidence := if matchesExperienceLevel tool userProfile.experience then
    confidence + 0.05 else confidence
  min confidence 1.0

/-- `generateAssumptions`. -/
def generateAssumptions (tool : Tool) (userProfile : UserProfile) : List String :=
  let assumptions : List String :=
    [ "Based on " ++ userProfile.industry ++ " industry averages",
      "Assumes " ++ userProfile.teamSize.toStr ++ " team size",
      "Uses " ++ userProfile.experience.toStr ++ " level implementation timeline",
      "ROI calculated over 12-month period",
      "Includes setup and training costs" ]
  match tool.rating with
  | some r =>
    if r < 4.0 then assumptions ++ [ "Lower confidence due to tool rating" ]
    else assumptions
  | none => assumptions

/-- `calculateToolROI`. -/
def calculateToolROI (tool : Tool) (userProfile : UserProfile) : ROICalculation :=
  let investment := calculateInvestment tool userProfile
  let returns := calculateReturns tool userProfile
  { toolId := tool.id
    toolName := tool.name
    investment := investment
    returns := returns
    roi := calculateROIMetrics investment.total returns.total
    breakdown := calculateBreakdown tool userProfile
    confidence := calculateConfidence tool userProfile
    assumptions := generateAssumptions tool userProfile }

/-- JS comparison `totalInvestment / denom < c` including the division-by-zero
cases: `x/0` is `NaN` (for `x = 0`, all comparisons false), `+∞` (for `x > 0`,
`< c` false) or `-∞` (for `x < 0`, `< c` true for finite `c`). -/
def budgetRatioLt (totalInvestment denom c : ℚ) : Bool :=
  if denom = 0 then decide (totalInvestment < 0)
  else decide (totalInvestment / denom < c)

/-- `assessRisk`.  The average confidence of an empty stack is JS `NaN`
(modelled as `0/0 = 0` in `ℚ`: both make the two `>` comparisons false, so
the result, `high`, agrees). -/
def assessRisk (toolROIs : List ROICalculation) (userProfile : UserProfile) :
    RiskLevel :=
  let avgConfidence := (toolROIs.foldl (fun sum roi => sum + roi.confidence) 0) /
    ((toolROIs.length : ℕ) : ℚ)
  let totalInvestment := toolROIs.foldl (fun sum roi => sum + roi.investment.total) 0
  let denom := userProfile.budget.annual * 12
  if avgConfidence > 0.8 ∧ budgetRatioLt totalInvestment denom 0.3 then .low
  else if avgConfidence > 0.6 ∧ budgetRatioLt totalInvestment denom 0.6 then
    .medium
  else .high

/-- `generateRecommendations` of the ROI calculator (advice strings). -/
def generateRecommendations (toolROIs : List ROICalculation)
    (userProfile : UserProfile) : List String :=
  let recommendations : List String := []
  let highROITools := toolROIs.filter (fun roi => decide (roi.roi.percentage > 200))
  let recommendations := match highROITools with
    | first :: _ => recommendations ++
      [ "Prioritize " ++ first.toolName ++ " - highest ROI at " ++
        ratStr first.roi.percentage ++ "%" ]
    | [] => recommendations
  let quickPaybackTools := toolROIs.filter (fun roi =>
    decide (roi.roi.paybackPeriod < ((6 : ℚ) : WithTop ℚ)))
  let recommendations := match quickPaybackTools with
    | first :: _ => recommendations ++
      [ "Start with " ++ first.toolName ++ " - pays back in " ++
        WithTop.recTopCoe "Infinity" ratStr first.roi.paybackPeriod ++
        " months" ]
    | [] => recommendations
  let totalInvestment := toolROIs.foldl (fun sum roi => sum + roi.investment.total) 0
  if totalInvestment > userProfile.budget.annual * 0.8 then
    recommendations ++ [ "Consider implementing tools in phases to manage budget" ]
  else recommendations

/-- `calculateStackROI`. -/
def calculateStackROI (tools : List Tool) (userProfile : UserProfile) :
    StackROICalculation :=
  let toolROIs := tools.map (fun tool => calculateToolROI tool userProfile)
  let totalInvestment := toolROIs.foldl (fun sum roi => sum + roi.investment.total) 0
  let totalReturns := toolROIs.foldl (fun sum roi => sum + roi.returns.total) 0
  let overallROI := calculateROIMetrics totalInvestment totalReturns
  { stackId := ""
    stackName := ratStr ((tools.length : ℕ) : ℚ) ++ " Tool Stack"
    tools := toolROIs
    totalInvestment := totalInvestment
    totalReturns := totalReturns
    overallROI := overallROI.percentage
    paybackPeriod := calculatePaybackPeriod totalInvestment totalReturns
    riskAssessment := assessRisk toolROIs userProfile
    recommendations := generateRecommendations toolROIs userProfile }

end ROICalculator

/-! ## Tool stack builder (`src/lib/toolStackBuilder.ts`) -/

/-- `ToolStackItem` from `@/types/user`. -/
structure ToolStackItem where
  toolId : String
  role : String
  priority : String
  integrationNotes : String

/-- `complexity: 'simple' | 'moderate' | 'complex'`. -/
inductive StackComplexity
  | simple
  | moderate
  | complex
deriving DecidableEq

/-- `ToolStack` from `@/types/user`. -/
structure ToolStack where
  id : String
  userId : String
  name : String
  description : String
  tools : List ToolStackItem
  estimatedCost : ℚ
  estimatedROI : ℚ
  complexity : StackComplexity
  useCase : String
  isPublic : Bool
  likes : ℚ
  shares : ℚ
  createdAt : Unit
  updatedAt : Unit

/-- `StackRecommendation` (stack builder module). -/
structure StackRecommendation where
  stack : ToolStack
  confidence : ℚ
  reasoning : List String
  alternatives : List ToolStack
  estimatedROI : ℚ
  timeToImplement : ℚ
  learningCurve : LearningCurveLabel

namespace ToolStackBuilder

/-- `extractPrice` of the stack builder (textually identical third copy). -/
def extractPrice (pricing : String) : ℚ := extractPriceCore pricing

/-- `isEssentialForUseCase`: substring match of the use case in the tool
text, category, or a tag. -/
def isEssentialForUseCase (tool : Tool) (useCase : String) : Bool :=
  let useCaseLower := strLower useCase
  let toolText := strLower (AIRecommendationEngine.toolTextRaw tool)
  strIncludes toolText useCaseLower ||
    strIncludes (strLower tool.category) useCaseLower ||
    (tool.tags.getD []).any (fun tag => strIncludes (strLower tag) useCaseLower)

/-- `isBalancedForUseCase`: essential, or rated at least 4.0. -/
def isBalancedForUseCase (tool : Tool) (useCase : String) : Bool :=
  isEssentialForUseCase tool useCase ||
    (match tool.rating with
     | some r => decide ((4.0 : ℚ) ≤ r)
     | none => false)

/-- `isFeatureRichForUseCase`: balanced, or rated at least 3.5. -/
def isFeatureRichForUseCase (tool : Tool) (useCase : String) : Bool :=
  isBalancedForUseCase tool useCase ||
    (match tool.rating with
     | some r => decide ((3.5 : ℚ) ≤ r)
     | none => false)

/-- `getToolRole` (`roles` lookup on the lowercased use case, defaulting to
the tool category). -/
def getToolRole (tool : Tool) (useCase : String) : String :=
  let u := strLower useCase
  if u = "marketing" then "Marketing Automation"
  else if u = "design" then "Design & Creative"
  else if u = "development" then "Development & Coding"
  else if u = "analytics" then "Data & Analytics"
  else if u = "automation" then "Workflow Automation"
  else if u = "communication" then "Team Communication"
  else if u = "project management" then "Project Management"
  else if u = "finance" then "Financial Management"
  else tool.category

/-- `generateIntegrationNotes`. -/
def generateIntegrationNotes (tool : Tool) (allTools : List Tool) : String :=
  let integrations := allTools.filter (fun t => decide (t.id ≠ tool.id))
  match integrations with
  | [] => "Standalone tool"
  | _ =>
    let integrationNames :=
      String.intercalate ", " ((integrations.take 2).map (fun t => t.name))
    "Integrates with: " ++ integrationNames ++
      (if integrations.length > 2 then " and more" else "")

/-- `calculateStackCost`: summed extracted monthly prices. -/
def calculateStackCost (tools : List Tool) : ℚ :=
  tools.foldl (fun total tool => total + extractPrice tool.pricing) 0

/-- `getIndustryROIMultiplier` of the stack builder (same table as engine). -/
def getIndustryROIMultiplier (industry : String) : ℚ :=
  AIRecommendationEngine.getIndustryROIMultiplier industry

/-- `getTeamSizeMultiplier` of the stack builder (same table as engine). -/
def getTeamSizeMultiplier : TeamSize → ℚ :=
  AIRecommendationEngine.getTeamSizeMultiplier

/-- `calculateStackROI` of the stack builder:
`round(150 × im × tm × min(n/3, 1.5))`. -/
def calculateStackROI (tools : List Tool) (userProfile : UserProfile) : ℚ :=
  let baseROI := (150 : ℚ)
  let industryMultiplier := getIndustryROIMultiplier userProfile.industry
  let teamSizeMultiplier := getTeamSizeMultiplier userProfile.teamSize
  let toolCountMultiplier := min (((tools.length : ℕ) : ℚ) / 3) 1.5
  ((round (baseROI * industryMultiplier * teamSizeMultiplier *
    toolCountMultiplier) : ℤ) : ℚ)

/-- `buildEssentialStack`: up to 3 essential tools; `null` when no tool
qualifies or the summed price exceeds the budget. -/
def buildEssentialStack (tools : List Tool) (userProfile : UserProfile)
    (useCase : String) (budget : ℚ) : Option ToolStack :=
  let essentialTools :=
    (tools.filter (fun tool => isEssentialForUseCase tool useCase)).take 3
  if essentialTools.isEmpty then none
  else
    let stackItems := essentialTools.map (fun tool =>
      { toolId := tool.id
        role := getToolRole tool useCase
        priority := "essential"
        integrationNotes := generateIntegrationNotes tool essentialTools
        : ToolStackItem })
    let estimatedCost := calculateStackCost essentialTools
    if estimatedCost > budget then none
    else some
      { id := ""
        userId := userProfile.userId
        name := useCase ++ " Essential Stack"
        description := "Core tools to get started with " ++ useCase
        tools := stackItems
        estimatedCost := estimatedCost
        estimatedROI := calculateStackROI essentialTools userProfile
        complexity := .simple
        useCase := useCase
        isPublic := false
        likes := 0
        shares := 0
        createdAt := ()
        updatedAt := () }

/-- `buildBalancedStack`: up to 5 balanced tools, first 3 essential. -/
def buildBalancedStack (tools : List Tool) (userProfile : UserProfile)
    (useCase : String) (budget : ℚ) : Option ToolStack :=
  let balancedTools :=
    (tools.filter (fun tool => isBalancedForUseCase tool useCase)).take 5
  if balancedTools.isEmpty then none
  else
    let stackItems := (balancedTools.enum).map (fun p =>
      { toolId := p.2.id
        role := getToolRole p.2 useCase
        priority := if p.1 < 3 then "essential" else "important"
        integrationNotes := generateIntegrationNotes p.2 balancedTools
        : ToolStackItem })
    let estimatedCost := calculateStackCost balancedTools
    if estimatedCost > budget then none
    else some
      { id := ""
        userId := userProfile.userId
        name := useCase ++ " Balanced Stack"
        description := "Complete solution for " ++ useCase ++
          " with essential and important tools"
        tools := stackItems
        estimatedCost := estimatedCost
        estimatedROI := calculateStackROI balancedTools userProfile
        complexity := .moderate
        useCase := useCase
        isPublic := false
        likes := 0
        shares := 0
        createdAt := ()
        updatedAt := () }

/-- `buildFeatureRichStack`: up to 7 feature-rich tools, priorities by
position (3 essential, 2 important, rest nice-to-have). -/
def buildFeatureRichStack (tools : List Tool) (userProfile : UserProfile)
    (useCase : String) (budget : ℚ) : Option ToolStack :=
  let featureRichTools :=
    (tools.filter (fun tool => isFeatureRichForUseCase tool useCase)).take 7
  if featureRichTools.isEmpty then none
  else
    let stackItems := (featureRichTools.enum).map (fun p =>
      { toolId := p.2.id
        role := getToolRole p.2 useCase
        priority :=
          if p.1 < 3 then "essential"
          else if p.1 < 5 then "important"
          else "nice-to-have"
        integrationNotes := generateIntegrationNotes p.2 featureRichTools
        : ToolStackItem })
    let estimatedCost := calculateStackCost featureRichTools
    if estimatedCost > budget then none
    else some
      { id := ""
        userId := userProfile.userId
        name := useCase ++ " Premium Stack"
        description := "Comprehensive solution for " ++ useCase ++
          " with advanced features"
        tools := stackItems
        estimatedCost := estimatedCost
        estimatedROI := calculateStackROI featureRichTools userProfile
        complexity := .complex
        useCase := useCase
        isPublic := false
        likes := 0
        shares := 0
        createdAt := ()
        updatedAt := () }

/-- `buildStackConfigurations`: the three optional archetypes in order. -/
def buildStackConfigurations (tools : List Tool) (userProfile : UserProfile)
    (useCase : String) (budget : ℚ) : List ToolStack :=
  (buildEssentialStack tools userProfile useCase budget).toList ++
    (buildBalancedStack tools userProfile useCase budget).toList ++
    (buildFeatureRichStack tools userProfile useCase budget).toList

/-- `calculateGoalAlignment` of the stack builder. -/
def calculateGoalAlignment (stack : ToolStack) (userProfile : UserProfile) : ℚ :=
  let alignmentScore := userProfile.primaryGoals.foldl (fun acc goal =>
    if strIncludes (strLower stack.description) (strLower goal) ||
        strIncludes (strLower stack.useCase) (strLower goal) then
      acc + 0.3
    else acc) 0
  min alignmentScore 1.0

/-- `estimateImplementationTime`: `round(14 × complexity multiplier)`. -/
def estimateImplementationTime (stack : ToolStack) : ℚ :=
  let complexityMultiplier : ℚ := match stack.complexity with
    | .simple => 1
    | .moderate => 1.5
    | .complex => 2.5
  ((round ((14 : ℚ) * complexityMultiplier) : ℤ) : ℚ)

/-- `calculateLearningCurve` of the stack builder. -/
def calculateLearningCurve (stack : ToolStack) : LearningCurveLabel :=
  match stack.complexity with
  | .simple => .easy
  | .moderate => .medium
  | .complex => .hard

/-- `scoreStack`: base confidence 0.7 plus four 0.1 bonuses, capped at 1. -/
def scoreStack (stack : ToolStack) (userProfile : UserProfile) :
    StackRecommendation :=
  let reasoning : List String := []
  let confidence := (0.7 : ℚ)
  let bonusBudget := stack.estimatedCost ≤ userProfile.budget.monthly * 0.8
  let confidence := if bonusBudget then confidence + 0.1 else confidence
  let reasoning := if bonusBudget then
    reasoning ++ [ "Fits within your budget" ] else reasoning
  let bonusExperience :=
    (userProfile.experience = .expert ∧ stack.complexity = .complex) ∨
    (userProfile.experience = .intermediate ∧ stack.complexity = .moderate) ∨
    (userProfile.experience = .beginner ∧ stack.complexity = .simple)
  let confidence := if bonusExperience then confidence + 0.1 else confidence
  let reasoning := if bonusExperience then
    reasoning ++ [ "Matches your " ++ userProfile.experience.toStr ++
      " experience level" ] else reasoning
  let bonusGoals := calculateGoalAlignment stack userProfile > 0.7
  let confidence := if bonusGoals then confidence + 0.1 else confidence
  let reasoning := if bonusGoals then
    reasoning ++ [ "Aligns with your primary goals" ] else reasoning
  let bonusROI := stack.estimatedROI > 200
  let confidence := if bonusROI then confidence + 0.1 else confidence
  let reasoning := if bonusROI then
    reasoning ++ [ "High ROI potential" ] else reasoning
  { stack := stack
    confidence := min confidence 1.0
    reasoning := reasoning
    alternatives := []
    estimatedROI := stack.estimatedROI
    timeToImplement := estimateImplementationTime stack
    learningCurve := calculateLearningCurve stack }

/-- `generateToolStack`: recommend 10 tools, build the three archetypes,
score them, sort descending by confidence, return the top 3. -/
def generateToolStack (catalog : List Tool) (userProfile : UserProfile)
    (useCase : String) (budget : ℚ) : List StackRecommendation :=
  let context : RecommendationContext :=
    { userProfile := userProfile
      currentSearch := some useCase
      recentInteractions := []
      searchHistory := []
      sessionData := { timeOnSite := 0, pagesVisited := [], currentGoal := none } }
  let recommendations :=
    AIRecommendationEngine.generateRecommendations catalog context 10
  let recommendedTools := recommendations.filterMap (fun r =>
    catalog.find? (fun t => t.id == r.toolId))
  let builtStacks :=
    buildStackConfigurations recommendedTools userProfile useCase budget
  let scoredStacks := builtStacks.map (fun stack => scoreStack stack userProfile)
  (scoredStacks.mergeSort (fun a b => decide (b.confidence ≤ a.confidence))).take 3

end ToolStackBuilder

/-! ## Chat dispatcher (`src/components/AIAssistant/AIAssistantButton.tsx`,
`processUserMessage`) -/

/-- A piece of `AIResponse.content`: plain text or a tool card. -/
inductive MessageContent
  | text (s : String)
  | toolCard (title : String) (description : String) (tools : List Tool)

/-- The `context` object attached to an `AIResponse` (all fields optional). -/
structure ResponseContext where
  type : Option String
  category : Option String
  tools : Option (List String)

/-- `AIResponse`. -/
structure AIResponse where
  content : List MessageContent
  context : ResponseContext

/-- The `greetings` list checked first by `processUserMessage`. -/
def chatGreetings : List String :=
  [ "hi", "hello", "hey", "good morning", "good afternoon", "good evening",
    "howdy", "sup", "what\x27s up" ]

/-- The canned greeting reply (context type `greeting`). -/
def greetingResponse : AIResponse :=
  { content :=
      [ .text ("Hello! 👋 I\x27m your AI assistant for finding the best AI tools. I can help you discover tools for:\n\n• Video editing and creation\n• Writing and content creation\n• Coding and development\n• Data analysis and insights\n• Design and creativity\n• Marketing and promotion\n• AI agents and automation\n• Personal finance and budgeting\n• Health and wellness\n• Education and learning\n• Gaming and entertainment\n• Legal and compliance\n\nWhat type of AI tools are you looking for today?") ]
    context := { type := some "greeting", category := none, tools := none } }

/-- The canned help reply (context type `help`). -/
def helpResponse : AIResponse :=
  { content :=
      [ .text ("I\x27m here to help you find the perfect AI tools! Here\x27s what I can do:\n\n🔍 **Search by Category**: Ask for tools in specific areas like \"video editing tools\" or \"writing assistants\"\n\n💡 **Search by Function**: Ask for tools that do specific things like \"tools for creating logos\" or \"apps for budgeting\"\n\n📊 **Get Recommendations**: Ask for \"the best tools for...\" or \"top tools for...\"\n\n🎯 **Specific Requests**: Ask for tools by name or specific features\n\nTry asking me something like:\n• \"Show me video editing tools\"\n• \"I need help with writing\"\n• \"What are the best AI tools for marketing?\"\n• \"Personal finance tools\"") ]
    context := { type := some "help", category := none, tools := none } }

/-- The canned thanks reply (context type `thanks`). -/
def thanksResponse : AIResponse :=
  { content :=
      [ .text ("You\x27re welcome! 😊 I\x27m here whenever you need help finding AI tools. Feel free to ask me anything about AI tools and I\x27ll do my best to help you discover the perfect ones for your needs.") ]
    context := { type := some "thanks", category := none, tools := none } }

/-- The canned goodbye reply (context type `goodbye`). -/
def goodbyeResponse : AIResponse :=
  { content :=
      [ .text ("Goodbye! 👋 Thanks for using the AI tools directory. Come back anytime you need help finding the perfect AI tools for your projects!") ]
    context := { type := some "goodbye", category := none, tools := none } }

/-- The `catch` branch reply (shown when the catalog import rejects). -/
def chatErrorResponse : AIResponse :=
  { content :=
      [ .text ("Sorry, I encountered an error processing your message. Please try asking about specific categories like video editing, writing, coding, or data analysis.") ]
    context := { type := none, category := none, tools := none } }

/-- The static no-results reply. -/
def noResultsResponse (message : String) : AIResponse :=
  { content :=
      [ .text ("I couldn\x27t find specific AI tools for \"" ++ message ++
          "\". Try asking about:\n\n• Video editing tools\n• Writing assistants\n• Coding helpers\n• Data analysis tools\n• Design tools\n• Marketing tools\n• AI agents & automation\n• Personal finance & budgeting\n• Health & wellness tools\n• Education & learning tools\n• Gaming & entertainment\n• Legal & compliance tools\n\nOr be more specific about what you\x27re looking for!") ]
    context := { type := none, category := none, tools := none } }

/-- A `searchPatterns` entry: a case-insensitive alternation of literal
keywords (the regex), a category label, a response line, and the tools
pre-filtered from the catalog (first five matches). -/
structure SearchPattern where
  keywords : List String
  category : String
  response : String
  tools : List Tool

/-- JS `tool.category?.toLowerCase().includes(kw)` (category is mandatory). -/
def catHas (tool : Tool) (kw : String) : Bool :=
  strIncludes (strLower tool.category) kw

/-- JS `tool.subcategory?.toLowerCase().includes(kw)` (`undefined` is falsy). -/
def subcatHas (tool : Tool) (kw : String) : Bool :=
  match tool.subcategory with
  | some s => strIncludes (strLower s) kw
  | none => false

/-- JS `tool.tags?.some(tag => tag.toLowerCase().includes(kw))`. -/
def tagHas (tool : Tool) (kw : String) : Bool :=
  (tool.tags.getD []).any (fun tag => strIncludes (strLower tag) kw)

/-- The fixed `searchPatterns` list built over the imported catalog. -/
def mkSearchPatterns (tools : List Tool) : List SearchPattern :=
  [ { keywords := [ "video", "editing", "film", "movie", "youtube", "vlog" ]
      category := "video"
      response := "Here are some excellent AI tools for video editing and creation:"
      tools := (tools.filter (fun tool => catHas tool "video" ||
        subcatHas tool "video" || tagHas tool "video")).take 5 },
    { keywords := [ "writing", "content", "blog", "article", "copy", "text" ]
      category := "writing"
      response := "Here are some great AI tools for writing and content creation:"
      tools := (tools.filter (fun tool => catHas tool "writing" ||
        subcatHas tool "writing" || tagHas tool "writing")).take 5 },
    { keywords := [ "coding", "programming", "developer", "code", "software" ]
      category := "coding"
      response := "Here are some powerful AI tools for coding and development:"
      tools := (tools.filter (fun tool => catHas tool "coding" ||
        subcatHas tool "coding" || tagHas tool "coding")).take 5 },
    { keywords := [ "data", "analysis", "analytics", "insights", "reporting" ]
      category := "data"
      response := "Here are some excellent AI tools for data analysis and insights:"
      tools := (tools.filter (fun tool => catHas tool "data" ||
        subcatHas tool "data" || tagHas tool "data")).take 5 },
    { keywords := [ "design", "graphic", "art", "creative", "visual" ]
      category := "design"
      response := "Here are some amazing AI tools for design and creativity:"
      tools := (tools.filter (fun tool => catHas tool "design" ||
        subcatHas tool "design" || tagHas tool "design")).take 5 },
    { keywords := [ "marketing", "social", "ads", "campaign", "promotion" ]
      category := "marketing"
      response := "Here are some effective AI tools for marketing and promotion:"
      tools := (tools.filter (fun tool => catHas tool "marketing" ||
        subcatHas tool "marketing" || tagHas tool "marketing")).take 5 },
    { keywords := [ "ai agent", "automation", "workflow", "bot", "process automation" ]
      category := "automation"
      response := "Here are some powerful AI tools for automation and workflow management:"
      tools := (tools.filter (fun tool => catHas tool "automation" ||
        subcatHas tool "automation" || catHas tool "agent" ||
        tagHas tool "automation" || tagHas tool "workflow")).take 5 },
    { keywords := [ "personal finance", "budgeting", "finance", "money", "budget",
        "financial" ]
      category := "finance"
      response := "Here are some excellent AI tools for personal finance and budgeting:"
      tools := (tools.filter (fun tool => catHas tool "finance" ||
        subcatHas tool "finance" || subcatHas tool "financial planning" ||
        catHas tool "budgeting" || tagHas tool "finance" ||
        tagHas tool "budget")).take 5 },
    { keywords := [ "health", "medical", "wellness", "fitness", "symptom",
        "diagnosis" ]
      category := "health"
      response := "Here are some excellent AI tools for health and wellness:"
      tools := (tools.filter (fun tool => catHas tool "health" ||
        subcatHas tool "health" || tagHas tool "health" ||
        tagHas tool "medical")).take 5 },
    { keywords := [ "education", "learning", "teaching", "student", "course",
        "training" ]
      category := "education"
      response := "Here are some great AI tools for education and learning:"
      tools := (tools.filter (fun tool => catHas tool "education" ||
        subcatHas tool "education" || tagHas tool "education" ||
        tagHas tool "learning")).take 5 },
    { keywords := [ "gaming", "game", "entertainment", "fun", "play" ]
      category := "gaming"
      response := "Here are some exciting AI tools for gaming and entertainment:"
      tools := (tools.filter (fun tool => catHas tool "gaming" ||
        catHas tool "entertainment" || subcatHas tool "gaming" ||
        tagHas tool "game" || tagHas tool "entertainment")).take 5 },
    { keywords := [ "legal", "law", "compliance", "contract", "document" ]
      category := "legal"
      response := "Here are some powerful AI tools for legal and compliance:"
      tools := (tools.filter (fun tool => catHas tool "legal" ||
        subcatHas tool "legal" || tagHas tool "legal" ||
        tagHas tool "law")).take 5 } ]

/-- A case-insensitive alternation-of-literals regex test against the raw
message (`pattern.pattern.test(message)`). -/
def patternTest (p : SearchPattern) (message : String) : Bool :=
  p.keywords.any (fun kw => strIncludes (strLower message) kw)

/-- The `commonWords` stop list guarding the general search. -/
def commonWords : List String :=
  [ "the", "and", "or", "but", "in", "on", "at", "to", "for", "of", "with",
    "by", "is", "are", "was", "were", "be", "been", "have", "has", "had",
    "do", "does", "did", "will", "would", "could", "should", "may", "might",
    "can", "this", "that", "these", "those", "a", "an" ]

/-- The general substring search over name/description/tags/category and the
final no-results fallback (the tail of `processUserMessage` after the
pattern block). -/
def generalSearch (tools : List Tool) (message messageLower : String) :
    AIResponse :=
  if messageLower.length ≥ 3 ∧ ¬ (messageLower ∈ commonWords) then
    let searchResults := (tools.filter (fun tool =>
      strIncludes (strLower tool.name) messageLower ||
      strIncludes (strLower tool.description) messageLower ||
      tagHas tool messageLower ||
      catHas tool messageLower)).take 3
    match searchResults with
    | [] => noResultsResponse message
    | _ =>
      { content :=
          [ .text ("I found " ++ ratStr ((searchResults.length : ℕ) : ℚ) ++
              " AI tools related to \"" ++ message ++ "\":"),
            .toolCard "Search Results" ("AI tools matching \"" ++ message ++ "\"")
              searchResults ]
        context :=
          { type := none
            category := some "search"
            tools := some (searchResults.map (fun t => t.name)) } }
  else noResultsResponse message

/-- `processUserMessage`.  The catalog argument models the dynamic
`import('@/data/tools')`: `none` is a failing import, whose rejection is
caught by the `try`/`catch` and turned into `chatErrorResponse`.  The
greeting/help/thanks/goodbye rules run before the import. -/
def processUserMessage (catalog : Option (List Tool)) (message : String) :
    AIResponse :=
  let messageLower := strLower (strTrim message)
  if chatGreetings.any (fun greeting => strIncludes messageLower greeting) then
    greetingResponse
  else if strIncludes messageLower "help" ||
      strIncludes messageLower "what can you do" ||
      strIncludes messageLower "how do you work" then
    helpResponse
  else if strIncludes messageLower "thank" || strIncludes messageLower "thanks"
      then
    thanksResponse
  else if strIncludes messageLower "bye" || strIncludes messageLower "goodbye" ||
      strIncludes messageLower "see you" then
    goodbyeResponse
  else
    match catalog with
    | none => chatErrorResponse
    | some tools =>
      let searchPatterns := mkSearchPatterns tools
      match searchPatterns.find? (fun p => patternTest p message) with
      | some matchedPattern =>
        if matchedPattern.tools.length > 0 then
          { content :=
              [ .text matchedPattern.response,
                .toolCard "Recommended Tools"
                  ("Top " ++ ratStr ((matchedPattern.tools.length : ℕ) : ℚ) ++
                    " AI tools for " ++ matchedPattern.category)
                  matchedPattern.tools ]
            context :=
              { type := none
                category := some matchedPattern.category
                tools := some (matchedPattern.tools.map (fun t => t.name)) } }
        else generalSearch tools message messageLower
      | none => generalSearch tools message messageLower

/-! ## Spec-side vocabulary and concrete fixtures for the claims -/

/-- The aggregate score of the catalog tool carrying a given id (0 when the
id is absent); used to state sortedness of recommendation output. -/
def scoreOfToolId (tools : List Tool) (context : RecommendationContext)
    (tid : String) : ℚ :=
  match tools.find? (fun t => t.id == tid) with
  | some t => (AIRecommendationEngine.calculateToolScore tools t context).score
  | none => 0

/-- A neutral user profile used to instantiate universally quantified
theorems at concrete inputs. -/
def baseProfile : UserProfile :=
  { id := "p1"
    userId := "u1"
    industry := "Technology"
    role := "founder"
    company := "acme"
    experience := .intermediate
    teamSize := .solo
    budget := { monthly := 500, annual := 6000, currency := "$" }
    primaryGoals := []
    currentProjects := []
    painPoints := []
    currentTools := []
    preferredCategories := []
    toolPreferences :=
      { easeOfUse := 5, priceSensitivity := 5, featureRichness := 5,
        integrationNeeds := 5 }
    searchHistory := []
    toolInteractions := []
    recommendations := []
    isPremium := false
    premiumTier := .basic
    aiAssistantMemory := []
    createdAt := ()
    updatedAt := () }

/-- A request context around a profile with empty interaction history. -/
def mkContext (p : UserProfile) : RecommendationContext :=
  { userProfile := p
    currentSearch := none
    recentInteractions := []
    searchHistory := []
    sessionData := { timeOnSite := 0, pagesVisited := [], currentGoal := none } }

/-- The profile of the spec example in claim C8, parameterized by the
monthly budget (`$500` versus `$10`). -/
def exampleProfile (monthly : ℚ) : UserProfile :=
  { baseProfile with
      budget := { monthly := monthly, annual := 6000, currency := "$" } }

/-- The `$49/month`, rating-4.6, Marketing tool of the spec example. -/
def exampleTool : Tool :=
  { id := "t49"
    name := "TestTool"
    category := "Marketing"
    subcategory := none
    description := ""
    pricing := "$49/month"
    tags := none
    rating := some 4.6
    url := "https://example.com" }

/-- A maximizing input for the aggregate score: an enterprise Technology
profile whose goals, tags and description drive every sub-factor to its
upper bound (and `roiPotential` to `0.5 × 1.5 × 1.6 = 1.2`). -/
def maxProfile : UserProfile :=
  { baseProfile with
      teamSize := .enterprise
      primaryGoals := [ "ai" ]
      toolPreferences :=
        { easeOfUse := 5, priceSensitivity := 5, featureRichness := 5,
          integrationNeeds := 8 } }

/-- A free, five-star tool maximizing every scoring sub-factor against
`maxProfile`: description matches three complexity indicators (complexity
`0.6`, the intermediate sweet spot) and all Technology keywords. -/
def maxTool : Tool :=
  { id := "tmax"
    name := "MaxTool"
    category := "AI Tools"
    subcategory := none
    description :=
      "software tech development coding programming enterprise advanced complex ai"
    pricing := "Free"
    tags := some [ "ai", "api" ]
    rating := some 5
    url := "https://example.com" }

/-- A second catalog tool distinct from `exampleTool`, for list fixtures. -/
def otherTool : Tool :=
  { id := "t2"
    name := "OtherTool"
    category := "Design"
    subcategory := none
    description := "design helper"
    pricing := "$5/month"
    tags := some [ "design" ]
    rating := none
    url := "https://example.org" }

/-- A profile identical to `p` except for `budget.monthly`. -/
def withMonthly (p : UserProfile) (m : ℚ) : UserProfile :=
  { p with budget := { p.budget with monthly := m } }

/-- A context identical to `ctx` except for the profile's `budget.monthly`. -/
def ctxWithMonthly (ctx : RecommendationContext) (m : ℚ) :
    RecommendationContext :=
  { ctx with userProfile := withMonthly ctx.userProfile m }

/-- The average per-tool confidence of a stack (as summed in `assessRisk`). -/
def stackAvgConfidence (tools : List Tool) (profile : UserProfile) : ℚ :=
  let rois := tools.map (fun t => ROICalculator.calculateToolROI t profile)
  (rois.foldl (fun sum roi => sum + roi.confidence) 0) / ((rois.length : ℕ) : ℚ)

/-- The summed total investment of a stack (as summed in `assessRisk`). -/
def stackTotalInvestment (tools : List Tool) (profile : UserProfile) : ℚ :=
  (tools.map (fun t => ROICalculator.calculateToolROI t profile)).foldl
    (fun sum roi => sum + roi.investment.total) 0

/-! ## Theorems -/

/-- Helper: scanning a digit-free character list finds no digit. -/
theorem firstDigitSuffix_eq_none (l : List Char)
    (h : ∀ c ∈ l, c.isDigit = false) : firstDigitSuffix l = none := by
  induction l with
  | nil => rfl
  | cons c t ih =>
    have hc := h c (List.mem_cons_self c t)
    simp only [firstDigitSuffix, hc, Bool.false_eq_true, if_false]
    exact ih (fun x hx => h x (List.mem_cons_of_mem c hx))

/-- C6: for every pricing string containing no digit characters, each of the
three identical `extractPrice` implementations (recommendation engine, ROI
calculator, stack builder) totally returns 0. -/
theorem extractPrice_no_digits_zero (s : String)
    (h : ∀ c ∈ s.data, c.isDigit = false) :
    AIRecommendationEngine.extractPrice s = 0 ∧
    ROICalculator.extractPrice s = 0 ∧
    ToolStackBuilder.extractPrice s = 0 := by
  have hfd := firstDigitSuffix_eq_none s.data h
  refine ⟨?_, ?_, ?_⟩ <;>
    simp [AIRecommendationEngine.extractPrice, ROICalculator.extractPrice,
      ToolStackBuilder.extractPrice, extractPriceCore, hfd]

/-- Witness for C6 at the digit-free pricing string `"Contact us"`. -/
theorem extractPrice_no_digits_zero_witness :
    (∀ c ∈ ("Contact us" : String).data, c.isDigit = false) ∧
    (AIRecommendationEngine.extractPrice "Contact us" = 0 ∧
     ROICalculator.extractPrice "Contact us" = 0 ∧
     ToolStackBuilder.extractPrice "Contact us" = 0) :=
  ⟨by decide, extractPrice_no_digits_zero "Contact us" (by decide)⟩

/-- C7: `calculateBudgetMatch` returns 1.0 when the extracted price is 0 or
at most 30% of the monthly budget, 0.8 when at most 60%, 0.6 when at most
100%, and 0.2 otherwise. -/
theorem budgetMatch_piecewise (tool : Tool) (profile : UserProfile) :
    AIRecommendationEngine.calculateBudgetMatch tool profile =
      (if AIRecommendationEngine.extractPrice tool.pricing = 0 ∨
          AIRecommendationEngine.extractPrice tool.pricing ≤
            0.3 * profile.budget.monthly then (1.0 : ℚ)
       else if AIRecommendationEngine.extractPrice tool.pricing ≤
          0.6 * profile.budget.monthly then 0.8
       else if AIRecommendationEngine.extractPrice tool.pricing ≤
          profile.budget.monthly then 0.6
       else 0.2) := by
  show (if AIRecommendationEngine.extractPrice tool.pricing = 0 then (1.0 : ℚ)
    else if AIRecommendationEngine.extractPrice tool.pricing ≤
        profile.budget.monthly * 0.3 then 1.0
    else if AIRecommendationEngine.extractPrice tool.pricing ≤
        profile.budget.monthly * 0.6 then 0.8
    else if AIRecommendationEngine.extractPrice tool.pricing ≤
        profile.budget.monthly then 0.6
    else 0.2) = _
  set price := AIRecommendationEngine.extractPrice tool.pricing
  set b := profile.budget.monthly
  by_cases h0 : price = 0
  · rw [if_pos h0, if_pos (Or.inl h0)]
  · rw [if_neg h0]
    by_cases h3 : price ≤ 0.3 * b
    · rw [if_pos (show price ≤ b * 0.3 by linarith), if_pos (Or.inr h3)]
    · rw [if_neg (show ¬ price ≤ b * 0.3 from fun hc => h3 (by linarith)),
        if_neg (show ¬ (price = 0 ∨ price ≤ 0.3 * b) by
          rintro (hc | hc)
          · exact h0 hc
          · exact h3 hc)]
      by_cases h6 : price ≤ 0.6 * b
      · rw [if_pos (show price ≤ b * 0.6 by linarith), if_pos h6]
      · rw [if_neg (show ¬ price ≤ b * 0.6 from fun hc => h6 (by linarith)),
          if_neg h6]

/-- C9: for every catalog state (present, empty or failing), the chat
dispatcher answers `"hello"` with the canned greeting response, whose
context type is `greeting`; the greeting rule runs before the catalog
import, so the catalog is never consulted. -/
theorem chat_hello_greeting (catalog : Option (List Tool)) :
    processUserMessage catalog "hello" = greetingResponse ∧
    greetingResponse.context.type = some "greeting" :=
  ⟨rfl, rfl⟩

/-- C10: any message whose lowercased trimmed text contains a greeting word
as a substring anywhere is answered with the canned greeting, never reaching
the category patterns or the catalog search (which is why
`"machine learning tools"`, containing `"hi"` inside `"machine"`, yields a
greeting instead of tool results). -/
theorem chat_greeting_substring_shadows (catalog : Option (List Tool))
    (message : String)
    (h : chatGreetings.any (fun greeting =>
      strIncludes (strLower (strTrim message)) greeting) = true) :
    processUserMessage catalog message = greetingResponse := by
  unfold processUserMessage
  simp only [h, if_true]

/-- Witness for C10: `"machine learning tools"` triggers the greeting rule
even with a failing catalog. -/
theorem chat_greeting_substring_shadows_witness :
    (chatGreetings.any (fun greeting =>
      strIncludes (strLower (strTrim "machine learning tools")) greeting)
        = true) ∧
    processUserMessage none "machine learning tools" = greetingResponse :=
  ⟨by decide,
    chat_greeting_substring_shadows none "machine learning tools" (by decide)⟩

/-- C4: for positive investment, the payback period is `Infinity` (`⊤`) if
and only if the annualized returns are at most 0, in both
`calculateROIMetrics` and `calculatePaybackPeriod`; for positive returns it
is the finite value `investment / (returns / 12)`, rounded to two decimals
in `calculateROIMetrics`. -/
theorem paybackPeriod_infinity_iff (investment returns : ℚ)
    (_hinv : 0 < investment) :
    ((ROICalculator.calculateROIMetrics investment returns).paybackPeriod = ⊤ ↔
      returns ≤ 0) ∧
    (ROICalculator.calculatePaybackPeriod investment returns = ⊤ ↔
      returns ≤ 0) ∧
    (0 < returns →
      ROICalculator.calculatePaybackPeriod investment returns =
        ((investment / (returns / 12) : ℚ) : WithTop ℚ) ∧
      (ROICalculator.calculateROIMetrics investment returns).paybackPeriod =
        ((round2 (investment / (returns / 12)) : ℚ) : WithTop ℚ)) := by
  have hmet : (ROICalculator.calculateROIMetrics investment returns).paybackPeriod
      = (if returns > 0 then ((investment / (returns / 12) : ℚ) : WithTop ℚ)
          else ⊤).map round2 := rfl
  have hpb : ROICalculator.calculatePaybackPeriod investment returns
      = (if returns ≤ 0 then (⊤ : WithTop ℚ)
          else ((investment / (returns / 12) : ℚ) : WithTop ℚ)) := rfl
  by_cases hr : 0 < returns
  · have hne : ¬ returns ≤ 0 := not_le.mpr hr
    rw [hmet, hpb, if_pos hr, if_neg hne, WithTop.map_coe]
    refine ⟨⟨fun h => absurd h (WithTop.coe_ne_top), fun h => absurd h hne⟩,
      ⟨fun h => absurd h (WithTop.coe_ne_top), fun h => absurd h hne⟩,
      fun _ => ⟨rfl, rfl⟩⟩
  · have hle : returns ≤ 0 := not_lt.mp hr
    rw [hmet, hpb, if_neg hr, if_pos hle, WithTop.map_top]
    exact ⟨⟨fun _ => hle, fun _ => rfl⟩, ⟨fun _ => hle, fun _ => rfl⟩,
      fun hc => absurd hc hr⟩

/-- Witness for C4 at investment 100 and returns 0. -/
theorem paybackPeriod_infinity_iff_witness :
    (0 : ℚ) < 100 ∧
    (((ROICalculator.calculateROIMetrics 100 0).paybackPeriod = ⊤ ↔
        (0 : ℚ) ≤ 0) ∧
     (ROICalculator.calculatePaybackPeriod 100 0 = ⊤ ↔ (0 : ℚ) ≤ 0) ∧
     ((0 : ℚ) < 0 →
       ROICalculator.calculatePaybackPeriod 100 0 =
         (((100 : ℚ) / ((0 : ℚ) / 12) : ℚ) : WithTop ℚ) ∧
       (ROICalculator.calculateROIMetrics 100 0).paybackPeriod =
         ((round2 ((100 : ℚ) / ((0 : ℚ) / 12)) : ℚ) : WithTop ℚ))) :=
  ⟨by norm_num, paybackPeriod_infinity_iff 100 0 (by norm_num)⟩

/-- C5: for a non-empty stack, `riskAssessment` is `low` iff the average
confidence exceeds 0.8 and the total investment is below 30% of
`annual budget × 12` (the code compares the ratio `total / (annual × 12)`;
for a positive annual budget this is the same as the product comparison, as
the final conjunct shows); otherwise `medium` when the average confidence
exceeds 0.6 and that ratio is below 0.6, else `high`. -/
theorem stackROI_risk_assessment (tools : List Tool) (profile : UserProfile)
    (_h : tools ≠ []) :
    ((ROICalculator.calculateStackROI tools profile).riskAssessment =
        RiskLevel.low ↔
      stackAvgConfidence tools profile > 0.8 ∧
      ROICalculator.budgetRatioLt (stackTotalInvestment tools profile)
        (profile.budget.annual * 12) 0.3 = true) ∧
    ((ROICalculator.calculateStackROI tools profile).riskAssessment =
        RiskLevel.medium ↔
      ¬ (stackAvgConfidence tools profile > 0.8 ∧
          ROICalculator.budgetRatioLt (stackTotalInvestment tools profile)
            (profile.budget.annual * 12) 0.3 = true) ∧
      (stackAvgConfidence tools profile > 0.6 ∧
        ROICalculator.budgetRatioLt (stackTotalInvestment tools profile)
          (profile.budget.annual * 12) 0.6 = true)) ∧
    ((ROICalculator.calculateStackROI tools profile).riskAssessment =
        RiskLevel.high ↔
      ¬ (stackAvgConfidence tools profile > 0.8 ∧
          ROICalculator.budgetRatioLt (stackTotalInvestment tools profile)
            (profile.budget.annual * 12) 0.3 = true) ∧
      ¬ (stackAvgConfidence tools profile > 0.6 ∧
          ROICalculator.budgetRatioLt (stackTotalInvestment tools profile)
            (profile.budget.annual * 12) 0.6 = true)) ∧
    (0 < profile.budget.annual →
      ((ROICalculator.budgetRatioLt (stackTotalInvestment tools profile)
          (profile.budget.annual * 12) 0.3 = true ↔
        stackTotalInvestment tools profile <
          0.3 * (profile.budget.annual * 12)) ∧
       (ROICalculator.budgetRatioLt (stackTotalInvestment tools profile)
          (profile.budget.annual * 12) 0.6 = true ↔
        stackTotalInvestment tools profile <
          0.6 * (profile.budget.annual * 12)))) := by
  have hD : 0 < profile.budget.annual →
      ((ROICalculator.budgetRatioLt (stackTotalInvestment tools profile)
          (profile.budget.annual * 12) 0.3 = true ↔
        stackTotalInvestment tools profile <
          0.3 * (profile.budget.annual * 12)) ∧
       (ROICalculator.budgetRatioLt (stackTotalInvestment tools profile)
          (profile.budget.annual * 12) 0.6 = true ↔
        stackTotalInvestment tools profile <
          0.6 * (profile.budget.annual * 12))) := by
    intro hA
    have hpos : (0 : ℚ) < profile.budget.annual * 12 := by linarith
    have hne : profile.budget.annual * 12 ≠ 0 := ne_of_gt hpos
    constructor <;>
      · unfold ROICalculator.budgetRatioLt
        rw [if_neg hne, decide_eq_true_eq, div_lt_iff₀ hpos]
  have hrw : (ROICalculator.calculateStackROI tools profile).riskAssessment =
      (if stackAvgConfidence tools profile > 0.8 ∧
          ROICalculator.budgetRatioLt (stackTotalInvestment tools profile)
            (profile.budget.annual * 12) 0.3 = true then RiskLevel.low
       else if stackAvgConfidence tools profile > 0.6 ∧
          ROICalculator.budgetRatioLt (stackTotalInvestment tools profile)
            (profile.budget.annual * 12) 0.6 = true then RiskLevel.medium
       else RiskLevel.high) := rfl
  rw [hrw]
  by_cases c1 : stackAvgConfidence tools profile > 0.8 ∧
      ROICalculator.budgetRatioLt (stackTotalInvestment tools profile)
        (profile.budget.annual * 12) 0.3 = true
  · rw [if_pos c1]
    exact ⟨⟨fun _ => c1, fun _ => rfl⟩,
      ⟨fun hc => absurd hc (by decide), fun hc => absurd c1 hc.1⟩,
      ⟨fun hc => absurd hc (by decide), fun hc => absurd c1 hc.1⟩, hD⟩
  · rw [if_neg c1]
    by_cases c2 : stackAvgConfidence tools profile > 0.6 ∧
        ROICalculator.budgetRatioLt (stackTotalInvestment tools profile)
          (profile.budget.annual * 12) 0.6 = true
    · rw [if_pos c2]
      exact ⟨⟨fun hc => absurd hc (by decide), fun hc => absurd hc c1⟩,
        ⟨fun _ => ⟨c1, c2⟩, fun _ => rfl⟩,
        ⟨fun hc => absurd hc (by decide), fun hc => absurd c2 hc.2⟩, hD⟩
    · rw [if_neg c2]
      exact ⟨⟨fun hc => absurd hc (by decide), fun hc => absurd hc c1⟩,
        ⟨fun hc => absurd hc (by decide), fun hc => absurd hc.2 c2⟩,
        ⟨fun _ => ⟨c1, c2⟩, fun _ => rfl⟩, hD⟩

/-- Witness for C5 at the one-tool stack `[exampleTool]` and `baseProfile`. -/
theorem stackROI_risk_assessment_witness :
    ([ exampleTool ] ≠ ([] : List Tool)) ∧
    (((ROICalculator.calculateStackROI [ exampleTool ] baseProfile).riskAssessment
          = RiskLevel.low ↔
        stackAvgConfidence [ exampleTool ] baseProfile > 0.8 ∧
        ROICalculator.budgetRatioLt
          (stackTotalInvestment [ exampleTool ] baseProfile)
          (baseProfile.budget.annual * 12) 0.3 = true) ∧
     ((ROICalculator.calculateStackROI [ exampleTool ] baseProfile).riskAssessment
          = RiskLevel.medium ↔
        ¬ (stackAvgConfidence [ exampleTool ] baseProfile > 0.8 ∧
            ROICalculator.budgetRatioLt
              (stackTotalInvestment [ exampleTool ] baseProfile)
              (baseProfile.budget.annual * 12) 0.3 = true) ∧
        (stackAvgConfidence [ exampleTool ] baseProfile > 0.6 ∧
          ROICalculator.budgetRatioLt
            (stackTotalInvestment [ exampleTool ] baseProfile)
            (baseProfile.budget.annual * 12) 0.6 = true)) ∧
     ((ROICalculator.calculateStackROI [ exampleTool ] baseProfile).riskAssessment
          = RiskLevel.high ↔
        ¬ (stackAvgConfidence [ exampleTool ] baseProfile > 0.8 ∧
            ROICalculator.budgetRatioLt
              (stackTotalInvestment [ exampleTool ] baseProfile)
              (baseProfile.budget.annual * 12) 0.3 = true) ∧
        ¬ (stackAvgConfidence [ exampleTool ] baseProfile > 0.6 ∧
            ROICalculator.budgetRatioLt
              (stackTotalInvestment [ exampleTool ] baseProfile)
              (baseProfile.budget.annual * 12) 0.6 = true)) ∧
     (0 < baseProfile.budget.annual →
       ((ROICalculator.budgetRatioLt
            (stackTotalInvestment [ exampleTool ] baseProfile)
            (baseProfile.budget.annual * 12) 0.3 = true ↔
          stackTotalInvestment [ exampleTool ] baseProfile <
            0.3 * (baseProfile.budget.annual * 12)) ∧
        (ROICalculator.budgetRatioLt
            (stackTotalInvestment [ exampleTool ] baseProfile)
            (baseProfile.budget.annual * 12) 0.6 = true ↔
          stackTotalInvestment [ exampleTool ] baseProfile <
            0.6 * (baseProfile.budget.annual * 12))))) :=
  ⟨by simp, stackROI_risk_assessment [ exampleTool ] baseProfile (by simp)⟩

/-- Helper: a stack produced by `buildEssentialStack` respects the budget. -/
theorem buildEssentialStack_cost_le (tools : List Tool) (p : UserProfile)
    (u : String) (b : ℚ) (st : ToolStack)
    (h : ToolStackBuilder.buildEssentialStack tools p u b = some st) :
    st.estimatedCost ≤ b := by
  rw [ToolStackBuilder.buildEssentialStack] at h
  simp only [] at h
  split_ifs at h with h1 h2
  injection h with h
  subst h
  exact le_of_not_lt h2

/-- Helper: a stack produced by `buildBalancedStack` respects the budget. -/
theorem buildBalancedStack_cost_le (tools : List Tool) (p : UserProfile)
    (u : String) (b : ℚ) (st : ToolStack)
    (h : ToolStackBuilder.buildBalancedStack tools p u b = some st) :
    st.estimatedCost ≤ b := by
  rw [ToolStackBuilder.buildBalancedStack] at h
  simp only [] at h
  split_ifs at h with h1 h2
  injection h with h
  subst h
  exact le_of_not_lt h2

/-- Helper: a stack produced by `buildFeatureRichStack` respects the budget. -/
theorem buildFeatureRichStack_cost_le (tools : List Tool) (p : UserProfile)
    (u : String) (b : ℚ) (st : ToolStack)
    (h : ToolStackBuilder.buildFeatureRichStack tools p u b = some st) :
    st.estimatedCost ≤ b := by
  rw [ToolStackBuilder.buildFeatureRichStack] at h
  simp only [] at h
  split_ifs at h with h1 h2
  injection h with h
  subst h
  exact le_of_not_lt h2

/-- C3: every stack recommendation produced by `generateToolStack` carries a
stack whose `estimatedCost` is at most the supplied budget (each archetype
builder returns `null` instead of an over-budget stack). -/
theorem generateToolStack_within_budget (catalog : List Tool)
    (userProfile : UserProfile) (useCase : String) (budget : ℚ) :
    (ToolStackBuilder.generateToolStack catalog userProfile useCase
      budget).Forall (fun s => s.stack.estimatedCost ≤ budget) := by
  rw [List.forall_iff_forall_mem]
  intro s hs
  unfold ToolStackBuilder.generateToolStack at hs
  have hs1 := List.mem_of_mem_take hs
  have hs2 := (List.mergeSort_perm _ _).mem_iff.mp hs1
  rcases List.mem_map.mp hs2 with ⟨st, hst, rfl⟩
  have hstack : (ToolStackBuilder.scoreStack st userProfile).stack = st := rfl
  rw [hstack]
  unfold ToolStackBuilder.buildStackConfigurations at hst
  rcases List.mem_append.mp hst with hst' | hst'
  · rcases List.mem_append.mp hst' with hst'' | hst''
    · rcases Option.mem_toList.mp hst'' with h
      exact buildEssentialStack_cost_le _ _ _ _ _ h
    · rcases Option.mem_toList.mp hst'' with h
      exact buildBalancedStack_cost_le _ _ _ _ _ h
  · rcases Option.mem_toList.mp hst' with h
    exact buildFeatureRichStack_cost_le _ _ _ _ _ h

/-- Helper: the fraction of matched indicators among five lies in `[0,1]`. -/
theorem filter_five_div_bounds (l : List Bool) (hl : l.length = 5) :
    0 ≤ (((l.filter id).length : ℕ) : ℚ) / 5 ∧
    (((l.filter id).length : ℕ) : ℚ) / 5 ≤ 1 := by
  constructor
  · positivity
  · rw [div_le_one (by norm_num)]
    have h := List.length_filter_le id l
    rw [hl] at h
    exact_mod_cast h

/-- Helper: the tool-complexity heuristic lies in `[0,1]`. -/
theorem estimateToolComplexity_bounds (tool : Tool) :
    0 ≤ AIRecommendationEngine.estimateToolComplexity tool ∧
    AIRecommendationEngine.estimateToolComplexity tool ≤ 1 := by
  unfold AIRecommendationEngine.estimateToolComplexity
  exact filter_five_div_bounds _ rfl

/-- Helper: `calculateBudgetMatch` takes one of four values in `[0,1]`. -/
theorem budgetMatch_bounds (tool : Tool) (profile : UserProfile) :
    0 ≤ AIRecommendationEngine.calculateBudgetMatch tool profile ∧
    AIRecommendationEngine.calculateBudgetMatch tool profile ≤ 1 := by
  simp only [AIRecommendationEngine.calculateBudgetMatch]
  split_ifs <;> norm_num

/-- Helper: the user level constant lies in `[0.3, 0.9]`. -/
theorem experienceLevelValue_bounds (e : Experience) :
    0.3 ≤ AIRecommendationEngine.experienceLevelValue e ∧
    AIRecommendationEngine.experienceLevelValue e ≤ 0.9 := by
  cases e <;> norm_num [AIRecommendationEngine.experienceLevelValue]

/-- Helper: `calculateExperienceMatch` lies in `[0,1]`. -/
theorem experienceMatch_bounds (tool : Tool) (profile : UserProfile) :
    0 ≤ AIRecommendationEngine.calculateExperienceMatch tool profile ∧
    AIRecommendationEngine.calculateExperienceMatch tool profile ≤ 1 := by
  obtain ⟨hc0, hc1⟩ := estimateToolComplexity_bounds tool
  obtain ⟨hu0, hu1⟩ := experienceLevelValue_bounds profile.experience
  simp only [AIRecommendationEngine.calculateExperienceMatch]
  constructor
  · rw [sub_nonneg, abs_le]
    constructor <;> linarith
  · have h := abs_nonneg (AIRecommendationEngine.experienceLevelValue
      profile.experience - AIRecommendationEngine.estimateToolComplexity tool)
    linarith

/-- Helper: a fold that only ever adds to its accumulator is monotone in
the initial value. -/
theorem foldl_ge_init (f : ℚ → String → ℚ) (hf : ∀ a g, a ≤ f a g) :
    ∀ (l : List String) (init : ℚ), init ≤ l.foldl f init := by
  intro l
  induction l with
  | nil => intro init; simp
  | cons g t ih => intro init; exact le_trans (hf init g) (ih (f init g))

/-- Helper: `calculateGoalAlignment` lies in `[0,1]`. -/
theorem goalAlignment_bounds (tool : Tool) (context : RecommendationContext) :
    0 ≤ AIRecommendationEngine.calculateGoalAlignment tool context ∧
    AIRecommendationEngine.calculateGoalAlignment tool context ≤ 1 := by
  constructor
  · simp only [AIRecommendationEngine.calculateGoalAlignment]
    apply le_min
    · apply foldl_ge_init
      intro a g
      dsimp only
      split_ifs <;> linarith
    · norm_num
  · have h : AIRecommendationEngine.calculateGoalAlignment tool context
        ≤ 1.0 := by
      simp only [AIRecommendationEngine.calculateGoalAlignment]
      exact min_le_right _ _
    linarith

/-- Helper: `calculateIndustryRelevance` lies in `[0,1]`. -/
theorem industryRelevance_bounds (tool : Tool) (profile : UserProfile) :
    0 ≤ AIRecommendationEngine.calculateIndustryRelevance tool profile ∧
    AIRecommendationEngine.calculateIndustryRelevance tool profile ≤ 1 := by
  constructor
  · simp only [AIRecommendationEngine.calculateIndustryRelevance]
    apply le_min
    · positivity
    · norm_num
  · have h : AIRecommendationEngine.calculateIndustryRelevance tool profile
        ≤ 1.0 := by
      simp only [AIRecommendationEngine.calculateIndustryRelevance]
      exact min_le_right _ _
    linarith

/-- Helper: `calculatePopularityScore` lies in `[0,1]` when the rating, if
present, lies in `[0,5]`. -/
theorem popularityScore_bounds (tool : Tool)
    (hr : ∀ r, tool.rating = some r → 0 ≤ r ∧ r ≤ 5) :
    0 ≤ AIRecommendationEngine.calculatePopularityScore tool ∧
    AIRecommendationEngine.calculatePopularityScore tool ≤ 1 := by
  unfold AIRecommendationEngine.calculatePopularityScore
  cases htool : tool.rating with
  | none => norm_num
  | some r =>
    obtain ⟨h0, h5⟩ := hr r htool
    rw [Option.getD_some]
    constructor
    · positivity
    · rw [div_le_one (by norm_num)]
      linarith

/-- Helper: the industry ROI multiplier lies in `[0.9, 1.5]`. -/
theorem industryROIMultiplier_bounds (industry : String) :
    0.9 ≤ AIRecommendationEngine.getIndustryROIMultiplier industry ∧
    AIRecommendationEngine.getIndustryROIMultiplier industry ≤ 1.5 := by
  simp only [AIRecommendationEngine.getIndustryROIMultiplier]
  split_ifs <;> norm_num

/-- Helper: the engine team-size multiplier lies in `[0.8, 1.6]`. -/
theorem teamSizeMultiplier_bounds (teamSize : TeamSize) :
    0.8 ≤ AIRecommendationEngine.getTeamSizeMultiplier teamSize ∧
    AIRecommendationEngine.getTeamSizeMultiplier teamSize ≤ 1.6 := by
  cases teamSize <;> norm_num [AIRecommendationEngine.getTeamSizeMultiplier]

/-- Helper: `calculateROIPotential` lies in `[0, 1.2]` (it exceeds 1 for
high-multiplier profiles). -/
theorem roiPotential_bounds (tool : Tool) (profile : UserProfile) :
    0 ≤ AIRecommendationEngine.calculateROIPotential tool profile ∧
    AIRecommendationEngine.calculateROIPotential tool profile ≤ 1.2 := by
  obtain ⟨hi0, hi1⟩ := industryROIMultiplier_bounds profile.industry
  obtain ⟨ht0, ht1⟩ := teamSizeMultiplier_bounds profile.teamSize
  simp only [AIRecommendationEngine.calculateROIPotential]
  constructor
  · nlinarith
  · nlinarith

/-- Helper: `calculateLearningCurveScore` is either 1 or 0.5. -/
theorem learningCurveScore_bounds (tool : Tool) (profile : UserProfile) :
    0 ≤ AIRecommendationEngine.calculateLearningCurveScore tool profile ∧
    AIRecommendationEngine.calculateLearningCurveScore tool profile ≤ 1 := by
  simp only [AIRecommendationEngine.calculateLearningCurveScore]
  split_ifs <;> norm_num

/-- Helper: `calculateIntegrationScore` is either 1 or 0.5. -/
theorem integrationScore_bounds (tool : Tool) (profile : UserProfile) :
    0 ≤ AIRecommendationEngine.calculateIntegrationScore tool profile ∧
    AIRecommendationEngine.calculateIntegrationScore tool profile ≤ 1 := by
  simp only [AIRecommendationEngine.calculateIntegrationScore]
  split_ifs <;> norm_num

/-- C1 (amended): with rating, when present, in `[0,5]`, seven of the eight
sub-factors lie in `[0,1]`; `roiPotential`, however, lies in `[0, 1.2]`
(reaching `0.5 × 1.5 × 1.6 = 1.2` for Technology/enterprise profiles), and
the fixed-weight aggregate score accordingly lies in `[0, 1.03]` rather
than `[0, 1]`. -/
theorem toolScore_factor_bounds (tools : List Tool) (tool : Tool)
    (context : RecommendationContext)
    (hr : ∀ r, tool.rating = some r → 0 ≤ r ∧ r ≤ 5) :
    (0 ≤ (AIRecommendationEngine.calculateToolScore tools tool
        context).factors.budgetMatch ∧
      (AIRecommendationEngine.calculateToolScore tools tool
        context).factors.budgetMatch ≤ 1) ∧
    (0 ≤ (AIRecommendationEngine.calculateToolScore tools tool
        context).factors.experienceMatch ∧
      (AIRecommendationEngine.calculateToolScore tools tool
        context).factors.experienceMatch ≤ 1) ∧
    (0 ≤ (AIRecommendationEngine.calculateToolScore tools tool
        context).factors.goalAlignment ∧
      (AIRecommendationEngine.calculateToolScore tools tool
        context).factors.goalAlignment ≤ 1) ∧
    (0 ≤ (AIRecommendationEngine.calculateToolScore tools tool
        context).factors.industryRelevance ∧
      (AIRecommendationEngine.calculateToolScore tools tool
        context).factors.industryRelevance ≤ 1) ∧
    (0 ≤ (AIRecommendationEngine.calculateToolScore tools tool
        context).factors.popularityScore ∧
      (AIRecommendationEngine.calculateToolScore tools tool
        context).factors.popularityScore ≤ 1) ∧
    (0 ≤ (AIRecommendationEngine.calculateToolScore tools tool
        context).factors.roiPotential ∧
      (AIRecommendationEngine.calculateToolScore tools tool
        context).factors.roiPotential ≤ 1.2) ∧
    (0 ≤ (AIRecommendationEngine.calculateToolScore tools tool
        context).factors.learningCurve ∧
      (AIRecommendationEngine.calculateToolScore tools tool
        context).factors.learningCurve ≤ 1) ∧
    (0 ≤ (AIRecommendationEngine.calculateToolScore tools tool
        context).factors.integrationScore ∧
      (AIRecommendationEngine.calculateToolScore tools tool
        context).factors.integrationScore ≤ 1) ∧
    (0 ≤ (AIRecommendationEngine.calculateToolScore tools tool context).score ∧
      (AIRecommendationEngine.calculateToolScore tools tool context).score
        ≤ 1.03) := by
  have hbm := budgetMatch_bounds tool context.userProfile
  have hem := experienceMatch_bounds tool context.userProfile
  have hga := goalAlignment_bounds tool context
  have hir := industryRelevance_bounds tool context.userProfile
  have hpop := popularityScore_bounds tool hr
  have hroi := roiPotential_bounds tool context.userProfile
  have hlc := learningCurveScore_bounds tool context.userProfile
  have his := integrationScore_bounds tool context.userProfile
  have hscore : (AIRecommendationEngine.calculateToolScore tools tool
      context).score =
      AIRecommendationEngine.calculateBudgetMatch tool context.userProfile
        * 0.15 +
      AIRecommendationEngine.calculateExperienceMatch tool context.userProfile
        * 0.12 +
      AIRecommendationEngine.calculateGoalAlignment tool context * 0.20 +
      AIRecommendationEngine.calculateIndustryRelevance tool context.userProfile
        * 0.10 +
      AIRecommendationEngine.calculatePopularityScore tool * 0.08 +
      AIRecommendationEngine.calculateROIPotential tool context.userProfile
        * 0.15 +
      AIRecommendationEngine.calculateLearningCurveScore tool context.userProfile
        * 0.10 +
      AIRecommendationEngine.calculateIntegrationScore tool context.userProfile
        * 0.10 := rfl
  refine ⟨hbm, hem, hga, hir, hpop, hroi, hlc, his, ?_, ?_⟩ <;>
    · rw [hscore]
      obtain ⟨h1, h2⟩ := hbm
      obtain ⟨h3, h4⟩ := hem
      obtain ⟨h5, h6⟩ := hga
      obtain ⟨h7, h8⟩ := hir
      obtain ⟨h9, h10⟩ := hpop
      obtain ⟨h11, h12⟩ := hroi
      obtain ⟨h13, h14⟩ := hlc
      obtain ⟨h15, h16⟩ := his
      linarith

/-- Counterexample to C1 as stated: for the concrete `maxTool` scored
against the Technology/enterprise `maxProfile` (whose rating 5 satisfies the
claim's rating assumption), the `roiPotential` sub-factor is `1.2 > 1` and
the aggregate score is `1.03 > 1`. -/
theorem toolScore_unit_interval_cex :
    (∀ r, maxTool.rating = some r → 0 ≤ r ∧ r ≤ 5) ∧
    (AIRecommendationEngine.calculateToolScore [] maxTool
      (mkContext maxProfile)).factors.roiPotential = 1.2 ∧
    (AIRecommendationEngine.calculateToolScore [] maxTool
      (mkContext maxProfile)).score = 1.03 ∧
    ¬ ((AIRecommendationEngine.calculateToolScore [] maxTool
        (mkContext maxProfile)).factors.roiPotential ≤ 1) ∧
    ¬ ((AIRecommendationEngine.calculateToolScore [] maxTool
        (mkContext maxProfile)).score ≤ 1) := by
  have hb1 : strIncludes maxTool.description "enterprise" = true := by decide
  have hb2 : strIncludes maxTool.description "advanced" = true := by decide
  have hb3 : strIncludes maxTool.description "complex" = true := by decide
  have hb4 : (maxTool.tags.getD []).any
      (fun tag => strIncludes tag "enterprise") = false := by decide
  have hb5 : (maxTool.tags.getD []).any
      (fun tag => strIncludes tag "advanced") = false := by decide
  have hcomp : AIRecommendationEngine.estimateToolComplexity maxTool = 0.6 := by
    simp only [AIRecommendationEngine.estimateToolComplexity, hb1, hb2, hb3,
      hb4, hb5]
    rw [show (List.filter id [true, true, true, false, false]).length = 3
      from rfl]
    norm_num
  have hbm : AIRecommendationEngine.calculateBudgetMatch maxTool maxProfile
      = 1.0 := by
    have hp : AIRecommendationEngine.extractPrice maxTool.pricing = 0 := by
      have hfd : firstDigitSuffix (String.data "Free") = none := by decide
      simp [AIRecommendationEngine.extractPrice, extractPriceCore, maxTool, hfd]
    simp [AIRecommendationEngine.calculateBudgetMatch, hp]
  have hexp : maxProfile.experience = Experience.intermediate := rfl
  have hem : AIRecommendationEngine.calculateExperienceMatch maxTool maxProfile
      = 1 := by
    simp only [AIRecommendationEngine.calculateExperienceMatch, hexp, hcomp]
    norm_num [AIRecommendationEngine.experienceLevelValue]
  have hg1 : (maxTool.tags.getD []).any
      (fun tag => strIncludes (strLower tag) (strLower "ai")) = true := by
    decide
  have hg2 : strIncludes (strLower maxTool.description) (strLower "ai")
      = true := by decide
  have hg3 : strIncludes (strLower maxTool.category) (strLower "ai")
      = true := by decide
  have hga : AIRecommendationEngine.calculateGoalAlignment maxTool
      (mkContext maxProfile) = 1 := by
    have hgoals : (mkContext maxProfile).userProfile.primaryGoals = [ "ai" ] :=
      rfl
    simp only [AIRecommendationEngine.calculateGoalAlignment, hgoals,
      List.foldl_cons, List.foldl_nil, hg1, hg2, hg3, if_true]
    norm_num
  have hk1 : strIncludes (strLower (AIRecommendationEngine.toolTextRaw maxTool))
      (strLower "software") = true := by decide
  have hk2 : strIncludes (strLower (AIRecommendationEngine.toolTextRaw maxTool))
      (strLower "tech") = true := by decide
  have hk3 : strIncludes (strLower (AIRecommendationEngine.toolTextRaw maxTool))
      (strLower "development") = true := by decide
  have hk4 : strIncludes (strLower (AIRecommendationEngine.toolTextRaw maxTool))
      (strLower "coding") = true := by decide
  have hk5 : strIncludes (strLower (AIRecommendationEngine.toolTextRaw maxTool))
      (strLower "programming") = true := by decide
  have hir : AIRecommendationEngine.calculateIndustryRelevance maxTool
      maxProfile = 1 := by
    have hind : maxProfile.industry = "Technology" := rfl
    simp only [AIRecommendationEngine.calculateIndustryRelevance, hind,
      AIRecommendationEngine.getIndustryKeywords, if_pos rfl]
    simp only [List.filter_cons, List.filter_nil, hk1, hk2, hk3, hk4, hk5,
      if_true]
    norm_num
  have hpop : AIRecommendationEngine.calculatePopularityScore maxTool = 1 := by
    simp [AIRecommendationEngine.calculatePopularityScore, maxTool]
    norm_num
  have hroi : AIRecommendationEngine.calculateROIPotential maxTool maxProfile
      = 1.2 := by
    have h1 : AIRecommendationEngine.getIndustryROIMultiplier
        maxProfile.industry = 1.5 := by
      have hind : maxProfile.industry = "Technology" := rfl
      rw [hind]
      simp [AIRecommendationEngine.getIndustryROIMultiplier]
    have h2 : AIRecommendationEngine.getTeamSizeMultiplier maxProfile.teamSize
        = 1.6 := rfl
    simp only [AIRecommendationEngine.calculateROIPotential, h1, h2]
    norm_num
  have hlc : AIRecommendationEngine.calculateLearningCurveScore maxTool
      maxProfile = 1.0 := by
    simp only [AIRecommendationEngine.calculateLearningCurveScore, hexp, hcomp]
    rw [if_neg (by rintro ⟨h, -⟩; exact Experience.noConfusion h),
      if_pos (by norm_num)]
  have hint : (maxTool.tags.getD []).any (fun tag =>
      strIncludes (strLower tag) "api" ||
      strIncludes (strLower tag) "integration" ||
      strIncludes (strLower tag) "zapier") = true := by decide
  have hneeds : maxProfile.toolPreferences.integrationNeeds = 8 := rfl
  have his : AIRecommendationEngine.calculateIntegrationScore maxTool
      maxProfile = 1.0 := by
    simp only [AIRecommendationEngine.calculateIntegrationScore, hint, hneeds]
    rw [if_pos (by norm_num)]
  have hfr : (AIRecommendationEngine.calculateToolScore [] maxTool
      (mkContext maxProfile)).factors.roiPotential =
      AIRecommendationEngine.calculateROIPotential maxTool maxProfile := rfl
  have hs : (AIRecommendationEngine.calculateToolScore [] maxTool
      (mkContext maxProfile)).score =
      AIRecommendationEngine.calculateBudgetMatch maxTool maxProfile * 0.15 +
      AIRecommendationEngine.calculateExperienceMatch maxTool maxProfile
        * 0.12 +
      AIRecommendationEngine.calculateGoalAlignment maxTool
        (mkContext maxProfile) * 0.20 +
      AIRecommendationEngine.calculateIndustryRelevance maxTool maxProfile
        * 0.10 +
      AIRecommendationEngine.calculatePopularityScore maxTool * 0.08 +
      AIRecommendationEngine.calculateROIPotential maxTool maxProfile * 0.15 +
      AIRecommendationEngine.calculateLearningCurveScore maxTool maxProfile
        * 0.10 +
      AIRecommendationEngine.calculateIntegrationScore maxTool maxProfile
        * 0.10 := rfl
  refine ⟨?_, ?_, ?_, ?_, ?_⟩
  · intro r h
    simp only [maxTool, Option.some.injEq] at h
    subst h
    norm_num
  · rw [hfr, hroi]
  · rw [hs, hbm, hem, hga, hir, hpop, hroi, hlc, his]
    norm_num
  · rw [hfr, hroi]
    norm_num
  · rw [hs, hbm, hem, hga, hir, hpop, hroi, hlc, his]
    norm_num

/-- Witness for C1 (amended) at the spec-example tool and profile. -/
theorem toolScore_factor_bounds_witness :
    (∀ r, exampleTool.rating = some r → 0 ≤ r ∧ r ≤ 5) ∧
    ((0 ≤ (AIRecommendationEngine.calculateToolScore [] exampleTool
        (mkContext (exampleProfile 500))).factors.budgetMatch ∧
      (AIRecommendationEngine.calculateToolScore [] exampleTool
        (mkContext (exampleProfile 500))).factors.budgetMatch ≤ 1) ∧
     (0 ≤ (AIRecommendationEngine.calculateToolScore [] exampleTool
        (mkContext (exampleProfile 500))).factors.experienceMatch ∧
      (AIRecommendationEngine.calculateToolScore [] exampleTool
        (mkContext (exampleProfile 500))).factors.experienceMatch ≤ 1) ∧
     (0 ≤ (AIRecommendationEngine.calculateToolScore [] exampleTool
        (mkContext (exampleProfile 500))).factors.goalAlignment ∧
      (AIRecommendationEngine.calculateToolScore [] exampleTool
        (mkContext (exampleProfile 500))).factors.goalAlignment ≤ 1) ∧
     (0 ≤ (AIRecommendationEngine.calculateToolScore [] exampleTool
        (mkContext (exampleProfile 500))).factors.industryRelevance ∧
      (AIRecommendationEngine.calculateToolScore [] exampleTool
        (mkContext (exampleProfile 500))).factors.industryRelevance ≤ 1) ∧
     (0 ≤ (AIRecommendationEngine.calculateToolScore [] exampleTool
        (mkContext (exampleProfile 500))).factors.popularityScore ∧
      (AIRecommendationEngine.calculateToolScore [] exampleTool
        (mkContext (exampleProfile 500))).factors.popularityScore ≤ 1) ∧
     (0 ≤ (AIRecommendationEngine.calculateToolScore [] exampleTool
        (mkContext (exampleProfile 500))).factors.roiPotential ∧
      (AIRecommendationEngine.calculateToolScore [] exampleTool
        (mkContext (exampleProfile 500))).factors.roiPotential ≤ 1.2) ∧
     (0 ≤ (AIRecommendationEngine.calculateToolScore [] exampleTool
        (mkContext (exampleProfile 500))).factors.learningCurve ∧
      (AIRecommendationEngine.calculateToolScore [] exampleTool
        (mkContext (exampleProfile 500))).factors.learningCurve ≤ 1) ∧
     (0 ≤ (AIRecommendationEngine.calculateToolScore [] exampleTool
        (mkContext (exampleProfile 500))).factors.integrationScore ∧
      (AIRecommendationEngine.calculateToolScore [] exampleTool
        (mkContext (exampleProfile 500))).factors.integrationScore ≤ 1) ∧
     (0 ≤ (AIRecommendationEngine.calculateToolScore [] exampleTool
        (mkContext (exampleProfile 500))).score ∧
      (AIRecommendationEngine.calculateToolScore [] exampleTool
        (mkContext (exampleProfile 500))).score ≤ 1.03)) :=
  by
  constructor
  · intro r h
    simp only [exampleTool, Option.some.injEq] at h
    subst h
    norm_num
  · exact toolScore_factor_bounds [] exampleTool
      (mkContext (exampleProfile 500))
      (by
        intro r h
        simp only [exampleTool, Option.some.injEq] at h
        subst h
        norm_num)

/-- C8: for the spec-example `$49/month` Marketing tool with rating 4.6
against the solo/intermediate/Technology profile, `budgetMatch` is 1.0 at a
`$500` monthly budget (49 ≤ 150) and 0.2 at `$10`, `popularityScore` is
0.92, and the aggregate score at `$500` strictly exceeds the one at `$10`;
in general, changing only `budget.monthly` leaves the seven other
sub-factors unchanged. -/
theorem budget_example_and_invariance :
    AIRecommendationEngine.calculateBudgetMatch exampleTool
      (exampleProfile 500) = 1.0 ∧
    AIRecommendationEngine.calculatePopularityScore exampleTool = 0.92 ∧
    AIRecommendationEngine.calculateBudgetMatch exampleTool
      (exampleProfile 10) = 0.2 ∧
    (AIRecommendationEngine.calculateToolScore [] exampleTool
        (mkContext (exampleProfile 500))).score >
      (AIRecommendationEngine.calculateToolScore [] exampleTool
        (mkContext (exampleProfile 10))).score ∧
    (∀ (tool : Tool) (p : UserProfile) (m₁ m₂ : ℚ),
      AIRecommendationEngine.calculateExperienceMatch tool (withMonthly p m₁) =
        AIRecommendationEngine.calculateExperienceMatch tool (withMonthly p m₂) ∧
      AIRecommendationEngine.calculateIndustryRelevance tool (withMonthly p m₁) =
        AIRecommendationEngine.calculateIndustryRelevance tool
          (withMonthly p m₂) ∧
      AIRecommendationEngine.calculateROIPotential tool (withMonthly p m₁) =
        AIRecommendationEngine.calculateROIPotential tool (withMonthly p m₂) ∧
      AIRecommendationEngine.calculateLearningCurveScore tool
          (withMonthly p m₁) =
        AIRecommendationEngine.calculateLearningCurveScore tool
          (withMonthly p m₂) ∧
      AIRecommendationEngine.calculateIntegrationScore tool (withMonthly p m₁) =
        AIRecommendationEngine.calculateIntegrationScore tool
          (withMonthly p m₂)) ∧
    (∀ (tool : Tool) (ctx : RecommendationContext) (m₁ m₂ : ℚ),
      AIRecommendationEngine.calculateGoalAlignment tool
          (ctxWithMonthly ctx m₁) =
        AIRecommendationEngine.calculateGoalAlignment tool
          (ctxWithMonthly ctx m₂)) := by
  have h1 : firstDigitSuffix (String.data "$49/month") =
      some (String.data "49/month") := by decide
  have h2 : readDigitsAcc (String.data "49/month") 0 =
      (49, String.data "/month") := by decide
  have h3 : fracPart (String.data "/month") = 0 := rfl
  have hp : AIRecommendationEngine.extractPrice exampleTool.pricing = 49 := by
    have he : exampleTool.pricing = "$49/month" := rfl
    rw [he]
    simp only [AIRecommendationEngine.extractPrice, extractPriceCore, h1,
      parseNumberAt, h2, h3]
    norm_num
  have hm500 : (exampleProfile 500).budget.monthly = 500 := rfl
  have hm10 : (exampleProfile 10).budget.monthly = 10 := rfl
  have hbm500 : AIRecommendationEngine.calculateBudgetMatch exampleTool
      (exampleProfile 500) = 1.0 := by
    simp only [AIRecommendationEngine.calculateBudgetMatch, hp, hm500]
    rw [if_neg (by norm_num), if_pos (by norm_num)]
  have hbm10 : AIRecommendationEngine.calculateBudgetMatch exampleTool
      (exampleProfile 10) = 0.2 := by
    simp only [AIRecommendationEngine.calculateBudgetMatch, hp, hm10]
    rw [if_neg (by norm_num), if_neg (by norm_num), if_neg (by norm_num),
      if_neg (by norm_num)]
  have hpop : AIRecommendationEngine.calculatePopularityScore exampleTool
      = 0.92 := by
    simp [AIRecommendationEngine.calculatePopularityScore, exampleTool]
    norm_num
  have hs500 : (AIRecommendationEngine.calculateToolScore [] exampleTool
      (mkContext (exampleProfile 500))).score =
      AIRecommendationEngine.calculateBudgetMatch exampleTool
        (exampleProfile 500) * 0.15 +
      AIRecommendationEngine.calculateExperienceMatch exampleTool
        (exampleProfile 500) * 0.12 +
      AIRecommendationEngine.calculateGoalAlignment exampleTool
        (mkContext (exampleProfile 500)) * 0.20 +
      AIRecommendationEngine.calculateIndustryRelevance exampleTool
        (exampleProfile 500) * 0.10 +
      AIRecommendationEngine.calculatePopularityScore exampleTool * 0.08 +
      AIRecommendationEngine.calculateROIPotential exampleTool
        (exampleProfile 500) * 0.15 +
      AIRecommendationEngine.calculateLearningCurveScore exampleTool
        (exampleProfile 500) * 0.10 +
      AIRecommendationEngine.calculateIntegrationScore exampleTool
        (exampleProfile 500) * 0.10 := rfl
  have hs10 : (AIRecommendationEngine.calculateToolScore [] exampleTool
      (mkContext (exampleProfile 10))).score =
      AIRecommendationEngine.calculateBudgetMatch exampleTool
        (exampleProfile 10) * 0.15 +
      AIRecommendationEngine.calculateExperienceMatch exampleTool
        (exampleProfile 500) * 0.12 +
      AIRecommendationEngine.calculateGoalAlignment exampleTool
        (mkContext (exampleProfile 500)) * 0.20 +
      AIRecommendationEngine.calculateIndustryRelevance exampleTool
        (exampleProfile 500) * 0.10 +
      AIRecommendationEngine.calculatePopularityScore exampleTool * 0.08 +
      AIRecommendationEngine.calculateROIPotential exampleTool
        (exampleProfile 500) * 0.15 +
      AIRecommendationEngine.calculateLearningCurveScore exampleTool
        (exampleProfile 500) * 0.10 +
      AIRecommendationEngine.calculateIntegrationScore exampleTool
        (exampleProfile 500) * 0.10 := rfl
  refine ⟨hbm500, hpop, hbm10, ?_, ?_, ?_⟩
  · rw [hs500, hs10, hbm500, hbm10]
    have hb := experienceMatch_bounds exampleTool (exampleProfile 500)
    linarith
  · intro tool p m₁ m₂
    exact ⟨rfl, rfl, rfl, rfl, rfl⟩
  · intro tool ctx m₁ m₂
    rfl

/-- Helper: with pairwise-distinct ids, `find?` on a member's id returns
exactly that member. -/
theorem find_eq_of_nodup (l : List Tool) (t : Tool) (ht : t ∈ l)
    (hnd : (l.map (fun x => x.id)).Nodup) :
    l.find? (fun x => x.id == t.id) = some t := by
  induction l with
  | nil => cases ht
  | cons a l ih =>
    rw [List.map_cons, List.nodup_cons] at hnd
    by_cases ha : (a.id == t.id) = true
    · rw [@List.find?_cons_of_pos Tool (fun x => x.id == t.id) a l ha]
      rcases List.mem_cons.mp ht with h | h
      · rw [h]
      · exfalso
        have hid : a.id = t.id := by
          simpa using ha
        exact hnd.1 (hid ▸ List.mem_map_of_mem (fun x => x.id) h)
    · rw [@List.find?_cons_of_neg Tool (fun x => x.id == t.id) a l ha]
      rcases List.mem_cons.mp ht with h | h
      · exfalso
        exact ha (by simp [h])
      · exact ih h hnd.2

/-- Helper: `scoreOfToolId` recovers the aggregate score of a catalog
member when ids are pairwise distinct. -/
theorem scoreOfToolId_of_mem (tools : List Tool)
    (context : RecommendationContext) (t : Tool) (ht : t ∈ tools)
    (hnd : (tools.map (fun x => x.id)).Nodup) :
    scoreOfToolId tools context t.id =
      (AIRecommendationEngine.calculateToolScore tools t context).score := by
  unfold scoreOfToolId
  rw [find_eq_of_nodup tools t ht hnd]

/-- C2: with pairwise-distinct catalog ids, `generateRecommendations`
returns at most `limit` entries, with pairwise-distinct `toolId`s, sorted
non-increasing by the aggregate score of the underlying tools. -/
theorem generateRecommendations_sorted_bounded_nodup (tools : List Tool)
    (context : RecommendationContext) (limit : ℕ)
    (hnd : (tools.map (fun t => t.id)).Nodup) :
    (AIRecommendationEngine.generateRecommendations tools context
      limit).length ≤ limit ∧
    ((AIRecommendationEngine.generateRecommendations tools context limit).map
      (fun r => r.toolId)).Nodup ∧
    (AIRecommendationEngine.generateRecommendations tools context
      limit).Pairwise (fun r₁ r₂ =>
        scoreOfToolId tools context r₂.toolId ≤
        scoreOfToolId tools context r₁.toolId) := by
  set le : RecommendationScore → RecommendationScore → Bool :=
    fun a b => decide (b.score ≤ a.score) with hle
  set scored : List RecommendationScore :=
    tools.map (fun tool =>
      AIRecommendationEngine.calculateToolScore tools tool context) with hscored
  have hperm : List.Perm (scored.mergeSort le) scored :=
    List.mergeSort_perm scored le
  have hmemscored : ∀ s ∈ scored, s.tool ∈ tools ∧
      scoreOfToolId tools context s.tool.id = s.score := by
    intro s hs
    rw [hscored] at hs
    rcases List.mem_map.mp hs with ⟨t, htmem, rfl⟩
    have htool : (AIRecommendationEngine.calculateToolScore tools t
        context).tool = t := rfl
    rw [htool]
    exact ⟨htmem, scoreOfToolId_of_mem tools context t htmem hnd⟩
  have htake : ∀ s ∈ (scored.mergeSort le).take limit, s ∈ scored := by
    intro s hs
    exact hperm.subset ((List.take_sublist _ _).subset hs)
  have hout : AIRecommendationEngine.generateRecommendations tools context
      limit = ((scored.mergeSort le).take limit).map (fun scoredTool =>
      { id := ""
        toolId := scoredTool.tool.id
        confidence := scoredTool.confidence
        reasoning := String.intercalate "; " scoredTool.reasoning
        alternatives := scoredTool.alternatives.map (fun t => t.id)
        estimatedROI := scoredTool.estimatedROI
        timeToValue := scoredTool.timeToValue
        learningCurve := AIRecommendationEngine.calculateLearningCurve
          scoredTool.factors.learningCurve
        recommendedFor := AIRecommendationEngine.generateRecommendationContext
          scoredTool context
        timestamp := () }) := rfl
  refine ⟨?_, ?_, ?_⟩
  · rw [hout, List.length_map, List.length_take]
    exact min_le_left _ _
  · rw [hout, List.map_map]
    show (((scored.mergeSort le).take limit).map
      (fun s => s.tool.id)).Nodup
    have hids_eq : scored.map (fun s => s.tool.id) =
        tools.map (fun t => t.id) := by
      rw [hscored, List.map_map]
      rfl
    have hnodup_sorted : ((scored.mergeSort le).map
        (fun s => s.tool.id)).Nodup := by
      refine ((hperm.map (fun s => s.tool.id)).nodup_iff).mpr ?_
      rw [hids_eq]
      exact hnd
    exact List.Nodup.sublist
      (List.Sublist.map _ (List.take_sublist _ _)) hnodup_sorted
  · have htrans : ∀ a b c : RecommendationScore,
        le a b = true → le b c = true → le a c = true := by
      intro a b c hab hbc
      rw [hle] at hab hbc ⊢
      rw [decide_eq_true_eq] at hab hbc ⊢
      exact le_trans hbc hab
    have htotal : ∀ a b : RecommendationScore, (le a b || le b a) = true := by
      intro a b
      rw [hle]
      rcases le_total a.score b.score with h | h
      · simp [h]
      · simp [h]
    have hsorted := List.sorted_mergeSort htrans htotal scored
    have htopPW : ((scored.mergeSort le).take limit).Pairwise
        (fun a b => le a b = true) :=
      List.Pairwise.sublist (List.take_sublist _ _) hsorted
    rw [hout, List.pairwise_map]
    refine List.Pairwise.imp_of_mem ?_ htopPW
    intro a b ha hb hab
    show scoreOfToolId tools context b.tool.id ≤
      scoreOfToolId tools context a.tool.id
    rw [(hmemscored a (htake a ha)).2, (hmemscored b (htake b hb)).2]
    rw [hle] at hab
    exact of_decide_eq_true hab

/-- Witness for C2 at a two-tool catalog with distinct ids. -/
theorem generateRecommendations_sorted_bounded_nodup_witness :
    (([ exampleTool, otherTool ].map (fun t => t.id)).Nodup) ∧
    ((AIRecommendationEngine.generateRecommendations
        [ exampleTool, otherTool ] (mkContext baseProfile) 2).length ≤ 2 ∧
     ((AIRecommendationEngine.generateRecommendations
        [ exampleTool, otherTool ] (mkContext baseProfile) 2).map
        (fun r => r.toolId)).Nodup ∧
     (AIRecommendationEngine.generateRecommendations
        [ exampleTool, otherTool ] (mkContext baseProfile) 2).Pairwise
        (fun r₁ r₂ =>
          scoreOfToolId [ exampleTool, otherTool ] (mkContext baseProfile)
            r₂.toolId ≤
          scoreOfToolId [ exampleTool, otherTool ] (mkContext baseProfile)
            r₁.toolId)) :=
  ⟨by decide,
    generateRecommendations_sorted_bounded_nodup [ exampleTool, otherTool ]
      (mkContext baseProfile) 2 (by decide)⟩
